import Mathlib

/-
  Shallow embedding of the Glossy flooding protocol core from
  src/arch/cpu/cc430/glossy.c (Baloo repository).

  Machine integers are modelled as Nat with explicit truncation:
  uint8 values are reduced mod 256, uint16 mod 2^16, uint32 mod 2^32 and
  the rtimer_ext_clock_t timestamps (uint64) mod 2^64.  Signed 8/16-bit
  statistics values are modelled as Int with two-complement wrapping.
  The radio driver and timer calls issued by the code are recorded as an
  explicit list of RadioOp values so that side effects can be reasoned
  about; the mutation of the global glossy_state_t structure g is
  modelled by explicit state passing.
-/

namespace Glossy

/-- Truncation of a natural number to an unsigned 8-bit value. -/
def u8 (n : Nat) : Nat := n % 256

/-- Truncation of a natural number to an unsigned 16-bit value. -/
def u16 (n : Nat) : Nat := n % 65536

/-- Truncation of a natural number to an unsigned 32-bit value. -/
def u32 (n : Nat) : Nat := n % 4294967296

/-- Truncation of a natural number to an unsigned 64-bit value. -/
def u64 (n : Nat) : Nat := n % 18446744073709551616

/-- Wrap an integer to a signed 8-bit value (two's complement). -/
def i8w (n : Int) : Int := (n + 128) % 256 - 128

/-- Wrap an integer to a signed 16-bit value (two's complement). -/
def i16w (n : Int) : Int := (n + 32768) % 65536 - 32768

/-- Subtraction of unsigned 64-bit quantities with wrap-around, as C
computes a - b on uint64_t operands. -/
def sub64 (a b : Nat) : Nat :=
  (a + (18446744073709551616 - b % 18446744073709551616)) % 18446744073709551616

/-- Compile-time configuration of the Glossy module (the
GLOSSY_CONF_... macros from glossy.h / project config, the node id and
the radio timing constants from the rf1a configuration).  These headers
are not part of src/, so they are kept as parameters. -/
structure GlossyConfig where
  payloadLenConf : Nat
  headerByte : Nat
  alwaysRelayCnt : Bool
  alwaysSampleNoise : Bool
  retransTimeout : Bool
  nodeId : Nat
  tau1Hf : Nat
  tTxByte : Nat
  tTxOffset : Nat
  t2r : Nat
  tau1Ns : Nat
  hfTicksNum : Nat
  hfTicksDen : Nat
deriving Repr

/-- SLOT_TIMEOUT_MIN from glossy.c (the source hardcodes 2, the
random-in-range variant is commented out). -/
def SLOT_TIMEOUT_MIN : Nat := 2

/-- TIMEOUT_EXTRA_TICKS from glossy.c. -/
def TIMEOUT_EXTRA_TICKS : Nat := 70

/-- T_SLOT_TOLERANCE from glossy.c: maximum tolerance (in ticks) used
when comparing a T_slot measurement against the theoretical value. -/
def T_SLOT_TOLERANCE : Nat := 10

/-- GLOSSY_MAX_HEADER_LEN: the Glossy header is at most two bytes. -/
def GLOSSY_MAX_HEADER_LEN : Nat := 2

/-- Modelled from the spec: GLOSSY_UNKNOWN_N_TX_MAX is defined in
glossy.h, which is not under src/.  Per the spec the n_tx_max header
field is 4 bits and the value 0 means unknown/unbounded. -/
def GLOSSY_UNKNOWN_N_TX_MAX : Nat := 0

/-- Modelled from the spec: GLOSSY_UNKNOWN_PAYLOAD_LEN is defined in
glossy.h, which is not under src/.  Per the spec it is an out-of-band
magic number for the uint8 payload_len field; 255 (0xff) is the
out-of-band value used here. -/
def GLOSSY_UNKNOWN_PAYLOAD_LEN : Nat := 255

/-- GLOSSY_COMMON_HEADER: the deployment tag, upper 3 bits of the
configured header byte. -/
def GLOSSY_COMMON_HEADER (cfg : GlossyConfig) : Nat := cfg.headerByte &&& 0xe0

/-- GET_COMMON_HEADER(pkt_type): upper 3 bits. -/
def GET_COMMON_HEADER (b : Nat) : Nat := b &&& 0xe0

/-- GET_SYNC(pkt_type): the with_sync bit. -/
def GET_SYNC (b : Nat) : Nat := b &&& 0x10

/-- GET_N_TX_MAX(pkt_type): lower 4 bits. -/
def GET_N_TX_MAX (b : Nat) : Nat := b &&& 0x0f

/-- SET_PKT_TYPE(pkt_type, with_sync, n_tx_max). -/
def SET_PKT_TYPE (cfg : GlossyConfig) (with_sync n_tx_max : Nat) : Nat :=
  GLOSSY_COMMON_HEADER cfg |||
    (if with_sync ≠ 0 then 0x10 else 0) ||| (n_tx_max &&& 0x0f)

/-- The per-node Glossy flood state, mirroring glossy_state_t (with
GLOSSY_CONF_COLLECT_STATS enabled).  payload_buf models the contents of
the caller-provided payload buffer that g.payload points to.
n_rx_total is specification instrumentation only: it counts successful
receptions without the uint8 truncation applied to n_rx, and is
mentioned by no executable branch of the embedded code. -/
structure GlossyState where
  t_ref : Nat
  t_tx_stop : Nat
  t_rx_start : Nat
  t_rx_stop : Nat
  t_tx_start : Nat
  T_slot_sum : Nat
  t_timeout : Nat
  T_slot_estimated : Nat
  header_pkt_type : Nat
  header_relay_cnt : Nat
  initiator_id : Nat
  payload_buf : List Nat
  payload_len : Nat
  n_T_slot : Nat
  active : Nat
  t_ref_updated : Nat
  header_ok : Nat
  relay_cnt_last_rx : Nat
  relay_cnt_last_tx : Nat
  relay_cnt_t_ref : Nat
  relay_cnt_timeout : Nat
  n_rx : Nat
  n_tx : Nat
  n_rx_total : Nat
  last_flood_relay_cnt : Nat
  last_flood_rssi_noise : Int
  last_flood_rssi_sum : Int
  last_flood_n_rx_started : Nat
  last_flood_n_rx_fail : Nat
  already_counted : Nat
  last_flood_duration : Nat
  last_flood_t_to_rx : Nat
  pkt_cnt : Nat
  pkt_cnt_crcok : Nat
  flood_cnt : Nat
  flood_cnt_success : Nat
  error_cnt : Nat
deriving Repr, DecidableEq

/-- The zero-initialised global state g (static storage duration). -/
def initState : GlossyState where
  t_ref := 0
  t_tx_stop := 0
  t_rx_start := 0
  t_rx_stop := 0
  t_tx_start := 0
  T_slot_sum := 0
  t_timeout := 0
  T_slot_estimated := 0
  header_pkt_type := 0
  header_relay_cnt := 0
  initiator_id := 0
  payload_buf := []
  payload_len := 0
  n_T_slot := 0
  active := 0
  t_ref_updated := 0
  header_ok := 0
  relay_cnt_last_rx := 0
  relay_cnt_last_tx := 0
  relay_cnt_t_ref := 0
  relay_cnt_timeout := 0
  n_rx := 0
  n_tx := 0
  n_rx_total := 0
  last_flood_relay_cnt := 0
  last_flood_rssi_noise := 0
  last_flood_rssi_sum := 0
  last_flood_n_rx_started := 0
  last_flood_n_rx_fail := 0
  already_counted := 0
  last_flood_duration := 0
  last_flood_t_to_rx := 0
  pkt_cnt := 0
  pkt_cnt_crcok := 0
  flood_cnt := 0
  flood_cnt_success := 0
  error_cnt := 0

/-- WITH_SYNC(): the sync bit of the current local header. -/
def withSync (s : GlossyState) : Bool := GET_SYNC s.header_pkt_type != 0

/-- WITH_RELAY_CNT(). -/
def withRelayCnt (cfg : GlossyConfig) (s : GlossyState) : Bool :=
  cfg.alwaysRelayCnt || withSync s

/-- GLOSSY_HEADER_LEN: 2 bytes when sync or relay counter is used,
1 byte otherwise (the macro reads the current local header). -/
def glossy_header_len (cfg : GlossyConfig) (s : GlossyState) : Nat :=
  if withSync s || withRelayCnt cfg s then 2 else 1

/-- GLOSSY_MAX_PACKET_LEN = GLOSSY_CONF_PAYLOAD_LEN + GLOSSY_MAX_HEADER_LEN. -/
def maxPacketLen (cfg : GlossyConfig) : Nat :=
  cfg.payloadLenConf + GLOSSY_MAX_HEADER_LEN

/-- Radio driver and timer calls issued by the Glossy code, recorded in
program order.  payloadCopied records the memcpy into the
caller-provided payload buffer. -/
inductive RadioOp where
  | goToIdle : RadioOp
  | goToSleep : RadioOp
  | startTx : RadioOp
  | startRx : RadioOp
  | flushRxFifo : RadioOp
  | flushTxFifo : RadioOp
  | setRxoffModeTx : RadioOp
  | setTxoffModeRx : RadioOp
  | setCalModeManual : RadioOp
  | manualCalibration : RadioOp
  | reconfigAfterSleep : RadioOp
  | clearPendingInterrupts : RadioOp
  | setHeaderLenRx (n : Nat) : RadioOp
  | writeTxFifo (hdr : List Nat) (payload : List Nat) : RadioOp
  | timerStop : RadioOp
  | timerSchedule (t : Nat) : RadioOp
  | timerUpdateEnable : RadioOp
  | timerUpdateDisable : RadioOp
  | payloadCopied (bytes : List Nat) : RadioOp
deriving Repr, DecidableEq

/-- The header bytes passed to rf1a_write_to_tx_fifo: the first
GLOSSY_HEADER_LEN bytes of the glossy_header_t struct. -/
def headerWireBytes (cfg : GlossyConfig) (s : GlossyState) : List Nat :=
  if glossy_header_len cfg s = 2 then [s.header_pkt_type, s.header_relay_cnt]
  else [s.header_pkt_type]

/-- process_glossy_header(pkt, pkt_len, crc_ok).  Returns the new state,
the radio calls issued, and the C return value (1 = keep processing).
The received header bytes are pkt[0] and pkt[1]; the comparison of
pkt_len - GLOSSY_HEADER_LEN with payload_len is done in Int, as the C
int arithmetic does after integer promotion. -/
def process_glossy_header (cfg : GlossyConfig) (s : GlossyState)
    (pkt : List Nat) (pkt_len : Nat) (crc_ok : Bool) :
    GlossyState × List RadioOp × Bool :=
  let rcvd_pkt_type := pkt.getD 0 0
  let rcvd_relay_cnt := pkt.getD 1 0
  let pass : Bool :=
    if s.header_ok ≠ 0 then true
    else if GET_COMMON_HEADER rcvd_pkt_type ≠ GLOSSY_COMMON_HEADER cfg then false
    else if GET_SYNC s.header_pkt_type ≠ GET_SYNC rcvd_pkt_type then false
    else if GET_N_TX_MAX s.header_pkt_type ≠ GLOSSY_UNKNOWN_N_TX_MAX ∧
            GET_N_TX_MAX s.header_pkt_type ≠ GET_N_TX_MAX rcvd_pkt_type then
      false
    else if (s.payload_len ≠ GLOSSY_UNKNOWN_PAYLOAD_LEN ∧
             (s.payload_len : Int) ≠
               (pkt_len : Int) - (glossy_header_len cfg s : Int)) ∨
            pkt_len > maxPacketLen cfg then
      false
    else if pkt_len > maxPacketLen cfg then false
    else true
  if pass then
    let s1 := if s.header_ok = 0 then {s with header_ok := 1} else s
    if crc_ok then
      if pkt_len > maxPacketLen cfg then (s1, [], false)
      else
        let s2 := {s1 with header_pkt_type := rcvd_pkt_type,
                           header_relay_cnt := rcvd_relay_cnt}
        let hl := glossy_header_len cfg s2
        let s3 := {s2 with payload_len := u8 (pkt_len + 256 - hl)}
        (s3, [RadioOp.setHeaderLenRx hl], true)
    else (s1, [], true)
  else (s, [], false)

/-- Modelled from the spec: NS_TO_RTIMER_EXT_HF_32 lives in the
rtimer/rf1a configuration headers, which are not under src/.  It scales
nanoseconds to high-frequency ticks by a fixed linear factor. -/
def ns_to_hf_32 (cfg : GlossyConfig) (ns : Nat) : Nat :=
  u32 (ns * cfg.hfTicksNum / cfg.hfTicksDen)

/-- estimate_T_slot(pkt_len): T_slot = T_tx + T_tx2rx - tau1 with
T_tx = T_TX_BYTE * (pkt_len + 3) + T_TX_OFFSET, computed in 32 bits.
The timing constants come from the rf1a configuration headers (not
under src/), so they are configuration parameters here. -/
def estimate_T_slot (cfg : GlossyConfig) (pkt_len : Nat) : Nat :=
  let tTxEstim := u32 (cfg.tTxByte * (pkt_len + 3) + cfg.tTxOffset)
  ns_to_hf_32 cfg (tTxEstim + cfg.t2r - cfg.tau1Ns)

/-- update_t_ref(t_ref, relay_cnt). -/
def update_t_ref (s : GlossyState) (t relay : Nat) : GlossyState :=
  {s with t_ref := t, t_ref_updated := 1, relay_cnt_t_ref := relay}

/-- add_T_slot_measurement(T_slot_measured): the measurement (a uint32)
is accumulated only when it lies strictly between
T_slot_estimated - T_SLOT_TOLERANCE and T_slot_estimated +
T_SLOT_TOLERANCE, both bounds computed in uint32 arithmetic. -/
def add_T_slot_measurement (s : GlossyState) (m : Nat) : GlossyState :=
  if u32 (s.T_slot_estimated + 4294967296 - T_SLOT_TOLERANCE) < m ∧
     m < u32 (s.T_slot_estimated + T_SLOT_TOLERANCE) then
    {s with T_slot_sum := u64 (s.T_slot_sum + m),
            n_T_slot := u8 (s.n_T_slot + 1)}
  else s

/-- glossy_stop(): returns the new state, the radio/timer calls issued
and the returned n_rx.  now models the rtimer_ext_now_hf() reading used
for the flood-duration statistic. -/
def glossy_stop (cfg : GlossyConfig) (now : Nat) (s : GlossyState) :
    (GlossyState × List RadioOp) × Nat :=
  if s.active ≠ 0 then
    let acts := [RadioOp.timerStop, RadioOp.flushRxFifo, RadioOp.flushTxFifo,
                 RadioOp.goToSleep, RadioOp.clearPendingInterrupts]
    let s1 := {s with active := 0}
    let s2 :=
      if s1.t_ref_updated ≠ 0 then
        if s1.n_T_slot > 0 then
          let d := u64 (s1.relay_cnt_t_ref * s1.T_slot_sum) / s1.n_T_slot
          {s1 with t_ref := sub64 s1.t_ref d}
        else
          let d := u32 (s1.relay_cnt_t_ref * s1.T_slot_estimated)
          {s1 with t_ref := sub64 s1.t_ref d}
      else s1
    let s3 := {s2 with last_flood_duration := sub64 (u64 now) s2.last_flood_duration}
    let s4 :=
      if s3.initiator_id = cfg.nodeId then s3
      else
        let sa :=
          if s3.last_flood_n_rx_started ≠ 0 then
            {s3 with flood_cnt := u32 (s3.flood_cnt + 1)}
          else s3
        if sa.n_rx ≠ 0 then
          {sa with flood_cnt_success := u32 (sa.flood_cnt_success + 1)}
        else sa
    ((s4, acts ++ [RadioOp.timerUpdateEnable]), s4.n_rx)
  else ((s, []), s.n_rx)

/-- schedule_timeout(). -/
def schedule_timeout (cfg : GlossyConfig) (s : GlossyState) :
    GlossyState × List RadioOp :=
  let s1 :=
    if withRelayCnt cfg s then
      {s with relay_cnt_timeout := u8 (s.header_relay_cnt + SLOT_TIMEOUT_MIN)}
    else s
  (s1, [RadioOp.timerSchedule
          (u64 (s1.t_timeout + u32 (SLOT_TIMEOUT_MIN * s1.T_slot_estimated)))])

/-- timeout_expired(rt): busy models rf1a_is_busy(), now models
rt->time. -/
def timeout_expired (cfg : GlossyConfig) (now : Nat) (busy : Bool)
    (s : GlossyState) : GlossyState × List RadioOp :=
  if !busy then
    let s1 := {s with header_relay_cnt := s.relay_cnt_timeout}
    let s2 := {s1 with t_timeout := u64 now}
    (s2, [RadioOp.startTx,
          RadioOp.writeTxFifo (headerWireBytes cfg s1)
            (s1.payload_buf.take s1.payload_len)])
  else
    let s1 := {s with relay_cnt_timeout := u8 (s.relay_cnt_timeout + 1)}
    (s1, [RadioOp.timerSchedule (u64 (now + s1.T_slot_estimated))])

/-- glossy_start(initiator_id, payload, payload_len, n_tx_max,
with_sync, with_rf_cal).  payloadInit models the initial contents of
the caller-provided payload buffer; noiseValid/noise model the outcome
of the RSSI-valid busy wait and of rf1a_get_rssi(). -/
def glossy_start (cfg : GlossyConfig) (now : Nat) (init_id : Nat)
    (payloadInit : List Nat) (payload_len n_tx_max with_sync : Nat)
    (with_rf_cal noiseValid : Bool) (noise : Int) (s : GlossyState) :
    GlossyState × List RadioOp :=
  let s1 := {s with active := 1, initiator_id := u16 init_id,
                    payload_buf := payloadInit, payload_len := u8 payload_len,
                    n_rx := 0, n_tx := 0, n_rx_total := 0,
                    relay_cnt_last_rx := 0, relay_cnt_last_tx := 0,
                    t_ref_updated := 0, T_slot_sum := 0, n_T_slot := 0,
                    T_slot_estimated := 0, last_flood_relay_cnt := 0,
                    last_flood_n_rx_started := 0, last_flood_n_rx_fail := 0,
                    last_flood_rssi_sum := 0, last_flood_t_to_rx := 0,
                    last_flood_duration := 0, already_counted := 0,
                    header_pkt_type := SET_PKT_TYPE cfg with_sync n_tx_max,
                    header_relay_cnt := 0}
  let acts0 := [RadioOp.goToIdle, RadioOp.setRxoffModeTx, RadioOp.setTxoffModeRx,
                RadioOp.setCalModeManual, RadioOp.reconfigAfterSleep] ++
               (if with_rf_cal then [RadioOp.manualCalibration] else []) ++
               [RadioOp.setHeaderLenRx (glossy_header_len cfg s1)]
  if s1.initiator_id = cfg.nodeId then
    if s1.payload_len + glossy_header_len cfg s1 > maxPacketLen cfg then
      let p := glossy_stop cfg now s1
      (p.1.1, acts0 ++ p.1.2)
    else
      let s2 := {s1 with t_timeout := u64 (now + TIMEOUT_EXTRA_TICKS),
                         last_flood_duration := u64 now,
                         relay_cnt_timeout := 0}
      (s2, acts0 ++ [RadioOp.startTx,
                     RadioOp.writeTxFifo (headerWireBytes cfg s2)
                       (s2.payload_buf.take s2.payload_len)])
  else
    let s2 := {s1 with last_flood_duration := u64 now}
    let s3 :=
      if (cfg.alwaysSampleNoise ∨ with_sync ≠ 0) ∧ noiseValid then
        {s2 with last_flood_rssi_noise := i8w noise}
      else s2
    (s3, acts0 ++ [RadioOp.startRx])

/-- glossy_rx_started(timestamp) callback. -/
def glossy_rx_started (cfg : GlossyConfig) (t : Nat) (s : GlossyState) :
    GlossyState × List RadioOp :=
  let s1 := {s with t_rx_start := u64 t, header_ok := 0, already_counted := 0,
                    pkt_cnt := u32 (s.pkt_cnt + 1)}
  let s2 :=
    if s1.last_flood_n_rx_started = 0 then
      {s1 with last_flood_t_to_rx := sub64 (u64 t) s1.last_flood_duration}
    else s1
  let s3 := {s2 with last_flood_n_rx_started := u8 (s2.last_flood_n_rx_started + 1)}
  (s3, [RadioOp.timerUpdateDisable] ++
       (if s3.initiator_id = cfg.nodeId then [RadioOp.timerStop] else []))

/-- glossy_tx_started(timestamp) callback. -/
def glossy_tx_started (t : Nat) (s : GlossyState) : GlossyState :=
  {s with t_tx_start := u64 t}

/-- glossy_rx_failed(timestamp) callback. -/
def glossy_rx_failed (s : GlossyState) : GlossyState × List RadioOp :=
  let s1 :=
    if s.already_counted = 0 then
      {s with last_flood_n_rx_fail := u8 (s.last_flood_n_rx_fail + 1),
              already_counted := 1}
    else s
  (s1, [RadioOp.timerUpdateEnable] ++
       (if s1.active ≠ 0 then [RadioOp.flushRxFifo, RadioOp.startRx] else []))

/-- glossy_header_received(timestamp, header, packet_len) callback.
The Bool result records whether the header was accepted (when it is
not, the reception is aborted through rf1a_cb_rx_failed). -/
def glossy_header_received (cfg : GlossyConfig) (pkt : List Nat)
    (pkt_len : Nat) (s : GlossyState) : (GlossyState × List RadioOp) × Bool :=
  let r := process_glossy_header cfg s pkt pkt_len false
  if r.2.2 then ((r.1, r.2.1), true)
  else
    let s2 :=
      if r.1.already_counted = 0 then
        {r.1 with last_flood_n_rx_fail := u8 (r.1.last_flood_n_rx_fail + 1),
                  already_counted := 1}
      else r.1
    let p := glossy_rx_failed s2
    ((p.1, r.2.1 ++ p.2), false)

/-- Synchronisation block at the end of the success branch of
glossy_rx_ended: record the relay counter of this reception, update
t_ref on the first capture (also estimating the slot length), and take
a T_slot measurement when this reception immediately followed a
transmission. -/
def rx_ended_sync (cfg : GlossyConfig) (s7 : GlossyState) : GlossyState :=
  if withSync s7 then
    let sa := {s7 with relay_cnt_last_rx := u8 (s7.header_relay_cnt + 255)}
    let sb :=
      if sa.t_ref_updated = 0 then
        let sc := update_t_ref sa (sub64 sa.t_rx_start cfg.tau1Hf)
                    (u8 (sa.header_relay_cnt + 255))
        {sc with T_slot_estimated :=
          estimate_T_slot cfg (glossy_header_len cfg sc + sc.payload_len)}
      else sa
    if sb.relay_cnt_last_rx = u8 (sb.relay_cnt_last_tx + 1) ∧ sb.n_tx > 0 then
      add_T_slot_measurement sb
        (u32 (sub64 (sub64 sb.t_rx_start sb.t_tx_start) cfg.tau1Hf))
    else sb
  else s7

/-- Body of the success branch of glossy_rx_ended (the header was
accepted and stored, CRC ok), applied to the state s1 left by
process_glossy_header. -/
def rx_ended_success (cfg : GlossyConfig) (now : Nat) (rssi : Int)
    (pkt : List Nat) (s1 : GlossyState) : GlossyState × List RadioOp :=
  let payload := pkt.drop (glossy_header_len cfg s1)
  let relay_cnt_first := s1.header_relay_cnt
  let s2 := {s1 with header_relay_cnt := u8 (s1.header_relay_cnt + 1)}
  let p2 : GlossyState × List RadioOp :=
    if GET_N_TX_MAX s2.header_pkt_type = 0 ∨
       s2.n_tx < GET_N_TX_MAX s2.header_pkt_type then
      (s2, [RadioOp.writeTxFifo (headerWireBytes cfg s2)
              (payload.take s2.payload_len)])
    else
      let q := glossy_stop cfg now s2
      (q.1.1, q.1.2)
  let s3 := p2.1
  let s4 :=
    if withRelayCnt cfg s3 ∧ s3.n_rx = 0 then
      {s3 with last_flood_relay_cnt := relay_cnt_first}
    else s3
  let s5 := {s4 with last_flood_rssi_sum := i16w (s4.last_flood_rssi_sum + i8w rssi)}
  let s6 := {s5 with n_rx := u8 (s5.n_rx + 1), n_rx_total := s5.n_rx_total + 1}
  let p3 : GlossyState × List RadioOp :=
    if s6.initiator_id ≠ cfg.nodeId ∧ s6.n_rx = 1 then
      ({s6 with payload_buf := payload.take s6.payload_len},
       [RadioOp.payloadCopied (payload.take s6.payload_len)])
    else (s6, [])
  let s7 := p3.1
  (rx_ended_sync cfg s7, p2.2 ++ p3.2)

/-- Body of the failure branch of glossy_rx_ended (bad header fields):
count the failure once and abort through glossy_rx_failed. -/
def rx_ended_fail (s1 : GlossyState) : GlossyState × List RadioOp :=
  let s2 :=
    if s1.already_counted = 0 then
      {s1 with last_flood_n_rx_fail := u8 (s1.last_flood_n_rx_fail + 1),
               already_counted := 1}
    else s1
  glossy_rx_failed s2

/-- glossy_rx_ended(timestamp, pkt, len) callback: now models the clock
reading used by an inner glossy_stop(), rssi models
rf1a_get_last_packet_rssi(). -/
def glossy_rx_ended (cfg : GlossyConfig) (now : Nat) (rssi : Int) (t : Nat)
    (pkt : List Nat) (s : GlossyState) : GlossyState × List RadioOp :=
  let s0 := {s with t_rx_stop := u64 t, pkt_cnt_crcok := u32 (s.pkt_cnt_crcok + 1)}
  let r := process_glossy_header cfg s0 pkt pkt.length true
  let p :=
    if r.2.2 then rx_ended_success cfg now rssi pkt r.1
    else rx_ended_fail r.1
  (p.1, [RadioOp.timerUpdateEnable] ++ r.2.1 ++ p.2)

/-- Synchronisation block of glossy_tx_ended: record the relay counter
of this transmission, update t_ref on the first capture, and take a
T_slot measurement when this transmission immediately followed a
reception. -/
def tx_ended_sync (cfg : GlossyConfig) (s0 : GlossyState) : GlossyState :=
  if withSync s0 then
    let sa := {s0 with relay_cnt_last_tx := s0.header_relay_cnt}
    let sb :=
      if sa.t_ref_updated = 0 then
        update_t_ref sa sa.t_tx_start sa.header_relay_cnt
      else sa
    if sb.relay_cnt_last_tx = u8 (sb.relay_cnt_last_rx + 1) ∧ sb.n_rx > 0 then
      add_T_slot_measurement sb
        (u32 (sub64 sb.t_tx_start sb.t_rx_start + cfg.tau1Hf))
    else sb
  else s0

/-- glossy_tx_ended(timestamp) callback: now models the clock reading
used by an inner glossy_stop(). -/
def glossy_tx_ended (cfg : GlossyConfig) (now t : Nat) (s : GlossyState) :
    GlossyState × List RadioOp :=
  let s1 := tx_ended_sync cfg {s with t_tx_stop := u64 t}
  let s2 := {s1 with n_tx := u8 (s1.n_tx + 1)}
  if s2.n_tx = GET_N_TX_MAX s2.header_pkt_type ∧
     (GET_N_TX_MAX s2.header_pkt_type > 0 ∨ s2.initiator_id ≠ cfg.nodeId) then
    let q := glossy_stop cfg now s2
    (q.1.1, q.1.2)
  else
    if cfg.retransTimeout ∧ s2.initiator_id = cfg.nodeId ∧ s2.n_rx = 0 then
      schedule_timeout cfg s2
    else (s2, [])

/-- glossy_rx_tx_error(timestamp) callback. -/
def glossy_rx_tx_error (s : GlossyState) : GlossyState × List RadioOp :=
  let s1 := {s with error_cnt := u16 (s.error_cnt + 1)}
  (s1, [RadioOp.timerUpdateEnable] ++
       (if s1.active ≠ 0 then
          [RadioOp.flushRxFifo, RadioOp.flushTxFifo, RadioOp.startRx]
        else []))

/-- glossy_get_per(): packet error rate in 0.01 percent. -/
def glossy_get_per (s : GlossyState) : Nat :=
  if s.pkt_cnt ≠ 0 then
    let q := u16 (u64 (s.pkt_cnt_crcok * 10000) / s.pkt_cnt)
    (((10000 : Int) - (q : Int)) % 65536).toNat
  else 0

/-- glossy_get_fsr(): flood success rate in 0.01 percent. -/
def glossy_get_fsr (s : GlossyState) : Nat :=
  if s.flood_cnt ≠ 0 then u16 (u64 (s.flood_cnt_success * 10000) / s.flood_cnt)
  else 10000

/-- Events delivered to an (already started) Glossy node.  rxPkt is one
complete reception as the radio driver delivers it, per the ordering
contract: rx_started, then header_received, then (if the header was
accepted) rx_ended on CRC success or rx_failed on CRC failure.  txDone
is tx_started followed by tx_ended.  stopEv is an external
glossy_stop() call. -/
inductive GEvent where
  | rxPkt (tStart tEnd now : Nat) (rssi : Int) (pkt : List Nat) (crcOk : Bool) : GEvent
  | txDone (tStart tEnd now : Nat) : GEvent
  | rxTxErr : GEvent
  | timeoutFire (now : Nat) (busy : Bool) : GEvent
  | stopEv (now : Nat) : GEvent
deriving Repr, DecidableEq

/-- Deliver one event to the node. -/
def runEvent (cfg : GlossyConfig) (s : GlossyState) (e : GEvent) :
    GlossyState × List RadioOp :=
  match e with
  | GEvent.rxPkt tS tE now rssi pkt crcOk =>
    let p1 := glossy_rx_started cfg tS s
    let p2 := glossy_header_received cfg pkt pkt.length p1.1
    if p2.2 then
      if crcOk then
        let p3 := glossy_rx_ended cfg now rssi tE pkt p2.1.1
        (p3.1, p1.2 ++ p2.1.2 ++ p3.2)
      else
        let p3 := glossy_rx_failed p2.1.1
        (p3.1, p1.2 ++ p2.1.2 ++ p3.2)
    else (p2.1.1, p1.2 ++ p2.1.2)
  | GEvent.txDone tS tE now =>
    let s1 := glossy_tx_started tS s
    glossy_tx_ended cfg now tE s1
  | GEvent.rxTxErr => glossy_rx_tx_error s
  | GEvent.timeoutFire now busy => timeout_expired cfg now busy s
  | GEvent.stopEv now => (glossy_stop cfg now s).1

/-- Deliver a list of events in order, accumulating the radio calls. -/
def runTrace (cfg : GlossyConfig) (s : GlossyState) : List GEvent →
    GlossyState × List RadioOp
  | [] => (s, [])
  | e :: rest =>
    let p1 := runEvent cfg s e
    let p2 := runTrace cfg p1.1 rest
    (p2.1, p1.2 ++ p2.2)

/-- Test for the memcpy into the caller-provided payload buffer. -/
def isPayloadCopy : RadioOp → Bool
  | RadioOp.payloadCopied _ => true
  | _ => false

/-- Number of writes to the caller-provided payload buffer among the
recorded radio calls. -/
def writeCount (acts : List RadioOp) : Nat := (acts.filter isPayloadCopy).length

/-- Number of txDone events in a trace. -/
def countTx : List GEvent → Nat
  | [] => 0
  | GEvent.txDone _ _ _ :: rest => countTx rest + 1
  | _ :: rest => countTx rest

/-- Admissibility: every txDone event is delivered while the flood is
active (the radio only completes a transmission of a flood that is
still running). -/
def txOnlyWhileActive (cfg : GlossyConfig) : GlossyState → List GEvent → Bool
  | _, [] => true
  | s, e :: rest =>
    (match e with
     | GEvent.txDone _ _ _ => s.active == 1
     | _ => true) && txOnlyWhileActive cfg (runEvent cfg s e).1 rest

/-- Every reception event in the trace carries a packet whose n_tx_max
header field equals m (in one flood all packets carry the initiator's
n_tx_max). -/
def rxCarriesNTxMax (m : Nat) : List GEvent → Bool
  | [] => true
  | GEvent.rxPkt _ _ _ _ pkt _ :: rest =>
    (GET_N_TX_MAX (pkt.getD 0 0) == m) && rxCarriesNTxMax m rest
  | _ :: rest => rxCarriesNTxMax m rest

/-- Traces made only of successful-looking receptions (packets whose
n_tx_max field is 0) and completed transmissions, the event alphabet of
an unbounded (n_tx_max = 0) flood on a receiver. -/
def unboundedFloodEvents : List GEvent → Bool
  | [] => true
  | GEvent.rxPkt _ _ _ _ pkt _ :: rest =>
    (GET_N_TX_MAX (pkt.getD 0 0) == 0) && unboundedFloodEvents rest
  | GEvent.txDone _ _ _ :: rest => unboundedFloodEvents rest
  | _ => false

/-- The (header, payload) arguments of the rf1a_write_to_tx_fifo calls
among the recorded radio calls. -/
def txFifoWrites (acts : List RadioOp) : List (List Nat × List Nat) :=
  acts.filterMap (fun a =>
    match a with
    | RadioOp.writeTxFifo h p => some (h, p)
    | _ => none)

/-- The header-acceptance condition exactly as the specification words
it for a node that has not latched header_ok yet: correct common
header; received sync bit equals the local one (the 1-bit sync field
has no unknown sentinel, so the unless-unknown disjunct is vacuous);
n_tx_max equal or locally unknown; packet length consistent with the
local payload_len or the latter unknown; and the packet not longer than
the maximal packet length. -/
def headerAcceptSpec (cfg : GlossyConfig) (s : GlossyState) (pkt : List Nat)
    (pkt_len : Nat) : Prop :=
  GET_COMMON_HEADER (pkt.getD 0 0) = GLOSSY_COMMON_HEADER cfg ∧
  GET_SYNC (pkt.getD 0 0) = GET_SYNC s.header_pkt_type ∧
  (GET_N_TX_MAX s.header_pkt_type = GLOSSY_UNKNOWN_N_TX_MAX ∨
   GET_N_TX_MAX (pkt.getD 0 0) = GET_N_TX_MAX s.header_pkt_type) ∧
  (s.payload_len = GLOSSY_UNKNOWN_PAYLOAD_LEN ∨
   (pkt_len : Int) - (glossy_header_len cfg s : Int) = (s.payload_len : Int)) ∧
  pkt_len ≤ maxPacketLen cfg

/-- A small concrete deployment configuration used by the witnesses:
node id 1, common-header tag 0xa0, configured payload length 4. -/
def cfg0 : GlossyConfig where
  payloadLenConf := 4
  headerByte := 160
  alwaysRelayCnt := false
  alwaysSampleNoise := false
  retransTimeout := true
  nodeId := 1
  tau1Hf := 0
  tTxByte := 0
  tTxOffset := 0
  t2r := 0
  tau1Ns := 0
  hfTicksNum := 0
  hfTicksDen := 1

/-- A receiver (initiator id 2 on node 1) that started a no-sync flood
with known payload_len 4 and unknown n_tx_max. -/
def recvStart : GlossyState :=
  (glossy_start cfg0 0 2 [9, 9, 9, 9] 4 0 0 false false 0 initState).1

/-- A receiver that started a no-sync flood with known payload_len 4
and known n_tx_max 2. -/
def recvStart2 : GlossyState :=
  (glossy_start cfg0 0 2 [9, 9, 9, 9] 4 2 0 false false 0 initState).1

/-- A receiver that started a sync flood with unknown payload_len and
unknown n_tx_max. -/
def syncRecvStart : GlossyState :=
  (glossy_start cfg0 0 2 [9, 9, 9, 9] 255 0 1 false false 0 initState).1

/-- A valid no-sync packet (tag 0xa0, n_tx_max 0) with payload
10 11 12 13. -/
def pktA : List Nat := [160, 10, 11, 12, 13]

/-- A valid no-sync packet with payload 20 21 22 23. -/
def pktB : List Nat := [160, 20, 21, 22, 23]

/-- A valid no-sync packet with n_tx_max 2. -/
def pktC : List Nat := [162, 10, 11, 12, 13]

/-- A valid sync packet with relay counter 7 and payload 50 51 52 53. -/
def pktS : List Nat := [176, 7, 50, 51, 52, 53]

/-- Successful reception of pktA. -/
def evA : GEvent := GEvent.rxPkt 0 0 0 0 pktA true

/-- Successful reception of pktB. -/
def evB : GEvent := GEvent.rxPkt 0 0 0 0 pktB true

/-- Successful reception of pktC. -/
def evC : GEvent := GEvent.rxPkt 0 0 0 0 pktC true

/-- A completed transmission. -/
def evT : GEvent := GEvent.txDone 0 0 0

/-- An active flood state about to stop, with relay_cnt_t_ref = 2,
T_slot_sum = 3 and n_T_slot = 2, so that the product-first and
divide-first readings of the back-projection differ. -/
def stateC2 : GlossyState :=
  {initState with
    active := 1
    t_ref_updated := 1
    relay_cnt_t_ref := 2
    T_slot_sum := 3
    n_T_slot := 2
    t_ref := 100}

/-- A state whose estimated slot length is 100 ticks. -/
def stateC7 : GlossyState := {initState with T_slot_estimated := 100}

/-- A state with 4 started packets of which 3 CRC-ok, and 4 floods of
which 1 successful. -/
def statsState : GlossyState :=
  {initState with
    pkt_cnt := 4
    pkt_cnt_crcok := 3
    flood_cnt := 4
    flood_cnt_success := 1}

@[simp] theorem writeCount_nil : writeCount [] = 0 := rfl

@[simp] theorem writeCount_append (a b : List RadioOp) :
    writeCount (a ++ b) = writeCount a + writeCount b := by
  simp [writeCount, List.filter_append]

@[simp] theorem writeCount_cons (a : RadioOp) (l : List RadioOp) :
    writeCount (a :: l) =
      (if isPayloadCopy a then 1 else 0) + writeCount l := by
  by_cases h : isPayloadCopy a
  · simp [writeCount, h]
    omega
  · simp [writeCount, h]

@[simp] theorem txFifoWrites_nil : txFifoWrites [] = [] := rfl

@[simp] theorem txFifoWrites_append (a b : List RadioOp) :
    txFifoWrites (a ++ b) = txFifoWrites a ++ txFifoWrites b := by
  simp [txFifoWrites]

@[simp] theorem txFifoWrites_cons (a : RadioOp) (l : List RadioOp) :
    txFifoWrites (a :: l) =
      (match a with
       | RadioOp.writeTxFifo h p => [(h, p)]
       | _ => []) ++ txFifoWrites l := by
  cases a <;> simp [txFifoWrites]

/-- process_glossy_header does not touch the flood life-cycle fields,
the counters or the payload buffer, performs no buffer write, and
either keeps the local pkt_type or replaces it by the received one. -/
theorem process_fields (cfg : GlossyConfig) (s : GlossyState)
    (pkt : List Nat) (n : Nat) (c : Bool) :
    ((process_glossy_header cfg s pkt n c).1).active = s.active ∧
    ((process_glossy_header cfg s pkt n c).1).initiator_id = s.initiator_id ∧
    ((process_glossy_header cfg s pkt n c).1).n_rx = s.n_rx ∧
    ((process_glossy_header cfg s pkt n c).1).n_rx_total = s.n_rx_total ∧
    ((process_glossy_header cfg s pkt n c).1).n_tx = s.n_tx ∧
    ((process_glossy_header cfg s pkt n c).1).payload_buf = s.payload_buf ∧
    writeCount (process_glossy_header cfg s pkt n c).2.1 = 0 ∧
    (((process_glossy_header cfg s pkt n c).1).header_pkt_type = s.header_pkt_type ∨
     ((process_glossy_header cfg s pkt n c).1).header_pkt_type = pkt.getD 0 0) := by
  simp only [process_glossy_header]
  split_ifs <;> simp [writeCount, isPayloadCopy]

@[simp] theorem process_active (cfg : GlossyConfig) (s : GlossyState)
    (pkt : List Nat) (n : Nat) (c : Bool) :
    ((process_glossy_header cfg s pkt n c).1).active = s.active :=
  (process_fields cfg s pkt n c).1

@[simp] theorem process_initiator (cfg : GlossyConfig) (s : GlossyState)
    (pkt : List Nat) (n : Nat) (c : Bool) :
    ((process_glossy_header cfg s pkt n c).1).initiator_id = s.initiator_id :=
  (process_fields cfg s pkt n c).2.1

@[simp] theorem process_n_rx (cfg : GlossyConfig) (s : GlossyState)
    (pkt : List Nat) (n : Nat) (c : Bool) :
    ((process_glossy_header cfg s pkt n c).1).n_rx = s.n_rx :=
  (process_fields cfg s pkt n c).2.2.1

@[simp] theorem process_n_rx_total (cfg : GlossyConfig) (s : GlossyState)
    (pkt : List Nat) (n : Nat) (c : Bool) :
    ((process_glossy_header cfg s pkt n c).1).n_rx_total = s.n_rx_total :=
  (process_fields cfg s pkt n c).2.2.2.1

@[simp] theorem process_n_tx (cfg : GlossyConfig) (s : GlossyState)
    (pkt : List Nat) (n : Nat) (c : Bool) :
    ((process_glossy_header cfg s pkt n c).1).n_tx = s.n_tx :=
  (process_fields cfg s pkt n c).2.2.2.2.1

@[simp] theorem process_payload_buf (cfg : GlossyConfig) (s : GlossyState)
    (pkt : List Nat) (n : Nat) (c : Bool) :
    ((process_glossy_header cfg s pkt n c).1).payload_buf = s.payload_buf :=
  (process_fields cfg s pkt n c).2.2.2.2.2.1

@[simp] theorem process_writeCount (cfg : GlossyConfig) (s : GlossyState)
    (pkt : List Nat) (n : Nat) (c : Bool) :
    writeCount (process_glossy_header cfg s pkt n c).2.1 = 0 :=
  (process_fields cfg s pkt n c).2.2.2.2.2.2.1

@[simp] theorem process_txFifoWrites (cfg : GlossyConfig) (s : GlossyState)
    (pkt : List Nat) (n : Nat) (c : Bool) :
    txFifoWrites (process_glossy_header cfg s pkt n c).2.1 = [] := by
  simp only [process_glossy_header]
  split_ifs <;> simp [txFifoWrites]

/-- On success with CRC, process_glossy_header has stored the received
header bytes into the local header. -/
theorem process_stores_header (cfg : GlossyConfig) (s : GlossyState)
    (pkt : List Nat) (n : Nat)
    (h : (process_glossy_header cfg s pkt n true).2.2 = true) :
    ((process_glossy_header cfg s pkt n true).1).header_relay_cnt = pkt.getD 1 0 ∧
    ((process_glossy_header cfg s pkt n true).1).header_pkt_type = pkt.getD 0 0 := by
  simp only [process_glossy_header] at h ⊢
  split_ifs at h ⊢ <;> simp_all

/-- Trace of 256 successful receptions of pktA, enough to wrap the 8-bit n_rx
counter back to 0. -/
def c3trace256 : List GEvent := List.replicate 256 evA

/-- recvStart after 256 successful receptions of pktA. -/
def c3run256 : GlossyState × List RadioOp := runTrace cfg0 recvStart c3trace256

/-- One further successful reception (of pktB) delivered after the
n_rx counter has wrapped. -/
def c3run257 : GlossyState × List RadioOp := runEvent cfg0 c3run256.1 evB

/-- Trace of 64 successful receptions of pktA (a quarter of the
wrap-around trace, kept small so the kernel can evaluate it). -/
def rx64 : List GEvent := List.replicate 64 evA

/-- Trace of 64 completed transmissions. -/
def tx64 : List GEvent := List.replicate 64 evT

/-- State of recvStart after 64 successful receptions of pktA. -/
def c3lit64 : GlossyState :=
  { t_ref := 0,
    t_tx_stop := 0,
    t_rx_start := 0,
    t_rx_stop := 0,
    t_tx_start := 0,
    T_slot_sum := 0,
    t_timeout := 0,
    T_slot_estimated := 0,
    header_pkt_type := 160,
    header_relay_cnt := 11,
    initiator_id := 2,
    payload_buf := [10, 11, 12, 13],
    payload_len := 4,
    n_T_slot := 0,
    active := 1,
    t_ref_updated := 0,
    header_ok := 1,
    relay_cnt_last_rx := 0,
    relay_cnt_last_tx := 0,
    relay_cnt_t_ref := 0,
    relay_cnt_timeout := 0,
    n_rx := 64,
    n_tx := 0,
    n_rx_total := 64,
    last_flood_relay_cnt := 0,
    last_flood_rssi_noise := 0,
    last_flood_rssi_sum := 0,
    last_flood_n_rx_started := 64,
    last_flood_n_rx_fail := 0,
    already_counted := 0,
    last_flood_duration := 0,
    last_flood_t_to_rx := 0,
    pkt_cnt := 64,
    pkt_cnt_crcok := 64,
    flood_cnt := 0,
    flood_cnt_success := 0,
    error_cnt := 0 }

/-- State of recvStart after 128 successful receptions of pktA. -/
def c3lit128 : GlossyState :=
  { t_ref := 0,
    t_tx_stop := 0,
    t_rx_start := 0,
    t_rx_stop := 0,
    t_tx_start := 0,
    T_slot_sum := 0,
    t_timeout := 0,
    T_slot_estimated := 0,
    header_pkt_type := 160,
    header_relay_cnt := 11,
    initiator_id := 2,
    payload_buf := [10, 11, 12, 13],
    payload_len := 4,
    n_T_slot := 0,
    active := 1,
    t_ref_updated := 0,
    header_ok := 1,
    relay_cnt_last_rx := 0,
    relay_cnt_last_tx := 0,
    relay_cnt_t_ref := 0,
    relay_cnt_timeout := 0,
    n_rx := 128,
    n_tx := 0,
    n_rx_total := 128,
    last_flood_relay_cnt := 0,
    last_flood_rssi_noise := 0,
    last_flood_rssi_sum := 0,
    last_flood_n_rx_started := 128,
    last_flood_n_rx_fail := 0,
    already_counted := 0,
    last_flood_duration := 0,
    last_flood_t_to_rx := 0,
    pkt_cnt := 128,
    pkt_cnt_crcok := 128,
    flood_cnt := 0,
    flood_cnt_success := 0,
    error_cnt := 0 }

/-- State of recvStart after 192 successful receptions of pktA. -/
def c3lit192 : GlossyState :=
  { t_ref := 0,
    t_tx_stop := 0,
    t_rx_start := 0,
    t_rx_stop := 0,
    t_tx_start := 0,
    T_slot_sum := 0,
    t_timeout := 0,
    T_slot_estimated := 0,
    header_pkt_type := 160,
    header_relay_cnt := 11,
    initiator_id := 2,
    payload_buf := [10, 11, 12, 13],
    payload_len := 4,
    n_T_slot := 0,
    active := 1,
    t_ref_updated := 0,
    header_ok := 1,
    relay_cnt_last_rx := 0,
    relay_cnt_last_tx := 0,
    relay_cnt_t_ref := 0,
    relay_cnt_timeout := 0,
    n_rx := 192,
    n_tx := 0,
    n_rx_total := 192,
    last_flood_relay_cnt := 0,
    last_flood_rssi_noise := 0,
    last_flood_rssi_sum := 0,
    last_flood_n_rx_started := 192,
    last_flood_n_rx_fail := 0,
    already_counted := 0,
    last_flood_duration := 0,
    last_flood_t_to_rx := 0,
    pkt_cnt := 192,
    pkt_cnt_crcok := 192,
    flood_cnt := 0,
    flood_cnt_success := 0,
    error_cnt := 0 }

/-- State of recvStart after 64 completed transmissions. -/
def c9lit64 : GlossyState :=
  { t_ref := 0,
    t_tx_stop := 0,
    t_rx_start := 0,
    t_rx_stop := 0,
    t_tx_start := 0,
    T_slot_sum := 0,
    t_timeout := 0,
    T_slot_estimated := 0,
    header_pkt_type := 160,
    header_relay_cnt := 0,
    initiator_id := 2,
    payload_buf := [9, 9, 9, 9],
    payload_len := 4,
    n_T_slot := 0,
    active := 1,
    t_ref_updated := 0,
    header_ok := 0,
    relay_cnt_last_rx := 0,
    relay_cnt_last_tx := 0,
    relay_cnt_t_ref := 0,
    relay_cnt_timeout := 0,
    n_rx := 0,
    n_tx := 64,
    n_rx_total := 0,
    last_flood_relay_cnt := 0,
    last_flood_rssi_noise := 0,
    last_flood_rssi_sum := 0,
    last_flood_n_rx_started := 0,
    last_flood_n_rx_fail := 0,
    already_counted := 0,
    last_flood_duration := 0,
    last_flood_t_to_rx := 0,
    pkt_cnt := 0,
    pkt_cnt_crcok := 0,
    flood_cnt := 0,
    flood_cnt_success := 0,
    error_cnt := 0 }

/-- State of recvStart after 128 completed transmissions. -/
def c9lit128 : GlossyState :=
  { t_ref := 0,
    t_tx_stop := 0,
    t_rx_start := 0,
    t_rx_stop := 0,
    t_tx_start := 0,
    T_slot_sum := 0,
    t_timeout := 0,
    T_slot_estimated := 0,
    header_pkt_type := 160,
    header_relay_cnt := 0,
    initiator_id := 2,
    payload_buf := [9, 9, 9, 9],
    payload_len := 4,
    n_T_slot := 0,
    active := 1,
    t_ref_updated := 0,
    header_ok := 0,
    relay_cnt_last_rx := 0,
    relay_cnt_last_tx := 0,
    relay_cnt_t_ref := 0,
    relay_cnt_timeout := 0,
    n_rx := 0,
    n_tx := 128,
    n_rx_total := 0,
    last_flood_relay_cnt := 0,
    last_flood_rssi_noise := 0,
    last_flood_rssi_sum := 0,
    last_flood_n_rx_started := 0,
    last_flood_n_rx_fail := 0,
    already_counted := 0,
    last_flood_duration := 0,
    last_flood_t_to_rx := 0,
    pkt_cnt := 0,
    pkt_cnt_crcok := 0,
    flood_cnt := 0,
    flood_cnt_success := 0,
    error_cnt := 0 }

/-- State of recvStart after 192 completed transmissions. -/
def c9lit192 : GlossyState :=
  { t_ref := 0,
    t_tx_stop := 0,
    t_rx_start := 0,
    t_rx_stop := 0,
    t_tx_start := 0,
    T_slot_sum := 0,
    t_timeout := 0,
    T_slot_estimated := 0,
    header_pkt_type := 160,
    header_relay_cnt := 0,
    initiator_id := 2,
    payload_buf := [9, 9, 9, 9],
    payload_len := 4,
    n_T_slot := 0,
    active := 1,
    t_ref_updated := 0,
    header_ok := 0,
    relay_cnt_last_rx := 0,
    relay_cnt_last_tx := 0,
    relay_cnt_t_ref := 0,
    relay_cnt_timeout := 0,
    n_rx := 0,
    n_tx := 192,
    n_rx_total := 0,
    last_flood_relay_cnt := 0,
    last_flood_rssi_noise := 0,
    last_flood_rssi_sum := 0,
    last_flood_n_rx_started := 0,
    last_flood_n_rx_fail := 0,
    already_counted := 0,
    last_flood_duration := 0,
    last_flood_t_to_rx := 0,
    pkt_cnt := 0,
    pkt_cnt_crcok := 0,
    flood_cnt := 0,
    flood_cnt_success := 0,
    error_cnt := 0 }

/-- recvStart2 (known n_tx_max 2) after three successful receptions and
an external stop. -/
def c6run : GlossyState × List RadioOp :=
  runTrace cfg0 recvStart2 [evC, evC, evC, GEvent.stopEv 0]

/-- Trace of 256 completed transmissions on the unbounded receiver, enough to
wrap the 8-bit n_tx counter back to 0. -/
def c9trace256 : List GEvent := List.replicate 256 evT

/-- recvStart after 256 completed transmissions. -/
def c9run256 : GlossyState × List RadioOp := runTrace cfg0 recvStart c9trace256

/-- glossy_stop leaves the flood inactive and does not modify the
counters, the identities, the header or the payload buffer. -/
theorem glossy_stop_fields (cfg : GlossyConfig) (now : Nat) (s : GlossyState) :
    ((glossy_stop cfg now s).1.1).active = 0 ∧
    ((glossy_stop cfg now s).1.1).n_rx = s.n_rx ∧
    (glossy_stop cfg now s).2 = s.n_rx ∧
    ((glossy_stop cfg now s).1.1).n_tx = s.n_tx ∧
    ((glossy_stop cfg now s).1.1).n_rx_total = s.n_rx_total ∧
    ((glossy_stop cfg now s).1.1).initiator_id = s.initiator_id ∧
    ((glossy_stop cfg now s).1.1).header_pkt_type = s.header_pkt_type ∧
    ((glossy_stop cfg now s).1.1).payload_buf = s.payload_buf ∧
    writeCount (glossy_stop cfg now s).1.2 = 0 := by
  by_cases h : s.active ≠ 0
  · simp only [glossy_stop, if_pos h]
    split_ifs <;> simp [writeCount, isPayloadCopy]
  · simp only [glossy_stop, if_neg h]
    simp only [ne_eq, not_not] at h
    simp [h, writeCount]

@[simp] theorem stop_active (cfg : GlossyConfig) (now : Nat) (s : GlossyState) :
    ((glossy_stop cfg now s).1.1).active = 0 :=
  (glossy_stop_fields cfg now s).1

@[simp] theorem stop_n_rx (cfg : GlossyConfig) (now : Nat) (s : GlossyState) :
    ((glossy_stop cfg now s).1.1).n_rx = s.n_rx :=
  (glossy_stop_fields cfg now s).2.1

@[simp] theorem stop_n_tx (cfg : GlossyConfig) (now : Nat) (s : GlossyState) :
    ((glossy_stop cfg now s).1.1).n_tx = s.n_tx :=
  (glossy_stop_fields cfg now s).2.2.2.1

@[simp] theorem stop_n_rx_total (cfg : GlossyConfig) (now : Nat) (s : GlossyState) :
    ((glossy_stop cfg now s).1.1).n_rx_total = s.n_rx_total :=
  (glossy_stop_fields cfg now s).2.2.2.2.1

@[simp] theorem stop_initiator (cfg : GlossyConfig) (now : Nat) (s : GlossyState) :
    ((glossy_stop cfg now s).1.1).initiator_id = s.initiator_id :=
  (glossy_stop_fields cfg now s).2.2.2.2.2.1

@[simp] theorem stop_pkt_type (cfg : GlossyConfig) (now : Nat) (s : GlossyState) :
    ((glossy_stop cfg now s).1.1).header_pkt_type = s.header_pkt_type :=
  (glossy_stop_fields cfg now s).2.2.2.2.2.2.1

@[simp] theorem stop_payload_buf (cfg : GlossyConfig) (now : Nat) (s : GlossyState) :
    ((glossy_stop cfg now s).1.1).payload_buf = s.payload_buf :=
  (glossy_stop_fields cfg now s).2.2.2.2.2.2.2.1

@[simp] theorem stop_writeCount (cfg : GlossyConfig) (now : Nat) (s : GlossyState) :
    writeCount (glossy_stop cfg now s).1.2 = 0 :=
  (glossy_stop_fields cfg now s).2.2.2.2.2.2.2.2

@[simp] theorem stop_txFifoWrites (cfg : GlossyConfig) (now : Nat)
    (s : GlossyState) :
    txFifoWrites (glossy_stop cfg now s).1.2 = [] := by
  simp only [glossy_stop]
  split_ifs <;> simp [txFifoWrites]

/-- Field effects of glossy_rx_started. -/
theorem rx_started_fields (cfg : GlossyConfig) (t : Nat) (s : GlossyState) :
    ((glossy_rx_started cfg t s).1).active = s.active ∧
    ((glossy_rx_started cfg t s).1).initiator_id = s.initiator_id ∧
    ((glossy_rx_started cfg t s).1).n_rx = s.n_rx ∧
    ((glossy_rx_started cfg t s).1).n_rx_total = s.n_rx_total ∧
    ((glossy_rx_started cfg t s).1).n_tx = s.n_tx ∧
    ((glossy_rx_started cfg t s).1).header_pkt_type = s.header_pkt_type ∧
    ((glossy_rx_started cfg t s).1).header_ok = 0 ∧
    ((glossy_rx_started cfg t s).1).payload_buf = s.payload_buf ∧
    writeCount (glossy_rx_started cfg t s).2 = 0 := by
  simp only [glossy_rx_started]
  split_ifs <;> simp [isPayloadCopy]

/-- Field effects of glossy_rx_failed. -/
theorem rx_failed_fields (s : GlossyState) :
    ((glossy_rx_failed s).1).active = s.active ∧
    ((glossy_rx_failed s).1).initiator_id = s.initiator_id ∧
    ((glossy_rx_failed s).1).n_rx = s.n_rx ∧
    ((glossy_rx_failed s).1).n_rx_total = s.n_rx_total ∧
    ((glossy_rx_failed s).1).n_tx = s.n_tx ∧
    ((glossy_rx_failed s).1).header_pkt_type = s.header_pkt_type ∧
    ((glossy_rx_failed s).1).payload_buf = s.payload_buf ∧
    writeCount (glossy_rx_failed s).2 = 0 := by
  simp only [glossy_rx_failed]
  split_ifs <;> simp [isPayloadCopy]

/-- Field effects of glossy_rx_tx_error. -/
theorem rx_tx_error_fields (s : GlossyState) :
    ((glossy_rx_tx_error s).1).active = s.active ∧
    ((glossy_rx_tx_error s).1).initiator_id = s.initiator_id ∧
    ((glossy_rx_tx_error s).1).n_rx = s.n_rx ∧
    ((glossy_rx_tx_error s).1).n_rx_total = s.n_rx_total ∧
    ((glossy_rx_tx_error s).1).n_tx = s.n_tx ∧
    ((glossy_rx_tx_error s).1).header_pkt_type = s.header_pkt_type ∧
    ((glossy_rx_tx_error s).1).payload_buf = s.payload_buf ∧
    writeCount (glossy_rx_tx_error s).2 = 0 := by
  simp only [glossy_rx_tx_error]
  split_ifs <;> simp [isPayloadCopy]

/-- Field effects of timeout_expired. -/
theorem timeout_expired_fields (cfg : GlossyConfig) (now : Nat) (busy : Bool)
    (s : GlossyState) :
    ((timeout_expired cfg now busy s).1).active = s.active ∧
    ((timeout_expired cfg now busy s).1).initiator_id = s.initiator_id ∧
    ((timeout_expired cfg now busy s).1).n_rx = s.n_rx ∧
    ((timeout_expired cfg now busy s).1).n_rx_total = s.n_rx_total ∧
    ((timeout_expired cfg now busy s).1).n_tx = s.n_tx ∧
    ((timeout_expired cfg now busy s).1).header_pkt_type = s.header_pkt_type ∧
    ((timeout_expired cfg now busy s).1).payload_buf = s.payload_buf ∧
    writeCount (timeout_expired cfg now busy s).2 = 0 := by
  simp only [timeout_expired]
  split_ifs <;> simp [isPayloadCopy]

/-- Field effects of schedule_timeout. -/
theorem schedule_timeout_fields (cfg : GlossyConfig) (s : GlossyState) :
    ((schedule_timeout cfg s).1).active = s.active ∧
    ((schedule_timeout cfg s).1).initiator_id = s.initiator_id ∧
    ((schedule_timeout cfg s).1).n_rx = s.n_rx ∧
    ((schedule_timeout cfg s).1).n_rx_total = s.n_rx_total ∧
    ((schedule_timeout cfg s).1).n_tx = s.n_tx ∧
    ((schedule_timeout cfg s).1).header_pkt_type = s.header_pkt_type ∧
    ((schedule_timeout cfg s).1).payload_buf = s.payload_buf ∧
    writeCount (schedule_timeout cfg s).2 = 0 := by
  simp only [schedule_timeout]
  split_ifs <;> simp [isPayloadCopy]

/-- Field effects of glossy_header_received. -/
theorem header_received_fields (cfg : GlossyConfig) (pkt : List Nat) (n : Nat)
    (s : GlossyState) :
    ((glossy_header_received cfg pkt n s).1.1).active = s.active ∧
    ((glossy_header_received cfg pkt n s).1.1).initiator_id = s.initiator_id ∧
    ((glossy_header_received cfg pkt n s).1.1).n_rx = s.n_rx ∧
    ((glossy_header_received cfg pkt n s).1.1).n_rx_total = s.n_rx_total ∧
    ((glossy_header_received cfg pkt n s).1.1).n_tx = s.n_tx ∧
    (((glossy_header_received cfg pkt n s).1.1).header_pkt_type = s.header_pkt_type ∨
     ((glossy_header_received cfg pkt n s).1.1).header_pkt_type = pkt.getD 0 0) ∧
    ((glossy_header_received cfg pkt n s).1.1).payload_buf = s.payload_buf ∧
    writeCount (glossy_header_received cfg pkt n s).1.2 = 0 := by
  have hp := process_fields cfg s pkt n false
  have hf1 := rx_failed_fields
  simp only [glossy_header_received]
  split_ifs with h1 h2 <;>
    simp_all [rx_failed_fields, isPayloadCopy]

/-- Field effects of add_T_slot_measurement. -/
theorem add_T_slot_fields (s : GlossyState) (m : Nat) :
    (add_T_slot_measurement s m).active = s.active ∧
    (add_T_slot_measurement s m).initiator_id = s.initiator_id ∧
    (add_T_slot_measurement s m).n_rx = s.n_rx ∧
    (add_T_slot_measurement s m).n_rx_total = s.n_rx_total ∧
    (add_T_slot_measurement s m).n_tx = s.n_tx ∧
    (add_T_slot_measurement s m).header_pkt_type = s.header_pkt_type ∧
    (add_T_slot_measurement s m).payload_buf = s.payload_buf := by
  simp only [add_T_slot_measurement]
  split_ifs <;> simp

/-- Field effects of the sync block of glossy_rx_ended. -/
theorem rx_ended_sync_fields (cfg : GlossyConfig) (s7 : GlossyState) :
    (rx_ended_sync cfg s7).active = s7.active ∧
    (rx_ended_sync cfg s7).initiator_id = s7.initiator_id ∧
    (rx_ended_sync cfg s7).n_rx = s7.n_rx ∧
    (rx_ended_sync cfg s7).n_rx_total = s7.n_rx_total ∧
    (rx_ended_sync cfg s7).n_tx = s7.n_tx ∧
    (rx_ended_sync cfg s7).header_pkt_type = s7.header_pkt_type ∧
    (rx_ended_sync cfg s7).payload_buf = s7.payload_buf := by
  simp only [rx_ended_sync]
  split_ifs <;> simp [update_t_ref, add_T_slot_fields]

/-- Field effects of the success branch of glossy_rx_ended, in terms of
the post-process state s1. -/
theorem rx_ended_success_fields (cfg : GlossyConfig) (now : Nat) (rssi : Int)
    (pkt : List Nat) (s1 : GlossyState) :
    ((rx_ended_success cfg now rssi pkt s1).1).initiator_id = s1.initiator_id ∧
    ((rx_ended_success cfg now rssi pkt s1).1).n_tx = s1.n_tx ∧
    ((rx_ended_success cfg now rssi pkt s1).1).header_pkt_type = s1.header_pkt_type ∧
    (((rx_ended_success cfg now rssi pkt s1).1).active = s1.active ∨
     ((rx_ended_success cfg now rssi pkt s1).1).active = 0) ∧
    (GET_N_TX_MAX s1.header_pkt_type = 0 →
      ((rx_ended_success cfg now rssi pkt s1).1).active = s1.active) ∧
    ((rx_ended_success cfg now rssi pkt s1).1).n_rx_total = s1.n_rx_total + 1 ∧
    ((rx_ended_success cfg now rssi pkt s1).1).n_rx = u8 (s1.n_rx + 1) ∧
    writeCount (rx_ended_success cfg now rssi pkt s1).2 =
      (if s1.initiator_id ≠ cfg.nodeId ∧ u8 (s1.n_rx + 1) = 1 then 1
       else 0) := by
  simp only [rx_ended_success]
  split_ifs <;>
    simp_all [rx_ended_sync_fields, isPayloadCopy]

/-- Every header handed to rf1a_write_to_tx_fifo by the success branch
of glossy_rx_ended is the stored header with its relay counter
incremented by one. -/
theorem rx_ended_success_fifo (cfg : GlossyConfig) (now : Nat) (rssi : Int)
    (pkt : List Nat) (s1 : GlossyState) (hdr py : List Nat)
    (hmem : (hdr, py) ∈ txFifoWrites (rx_ended_success cfg now rssi pkt s1).2) :
    hdr = headerWireBytes cfg
      {s1 with header_relay_cnt := u8 (s1.header_relay_cnt + 1)} := by
  simp only [rx_ended_success] at hmem
  split_ifs at hmem <;> simp_all

/-- The failure branch of glossy_rx_ended never writes the TX FIFO. -/
theorem rx_ended_fail_txFifoWrites (s1 : GlossyState) :
    txFifoWrites (rx_ended_fail s1).2 = [] := by
  simp only [rx_ended_fail, glossy_rx_failed]
  split_ifs <;> simp [txFifoWrites]

/-- Field effects of the failure branch of glossy_rx_ended. -/
theorem rx_ended_fail_fields (s1 : GlossyState) :
    ((rx_ended_fail s1).1).active = s1.active ∧
    ((rx_ended_fail s1).1).initiator_id = s1.initiator_id ∧
    ((rx_ended_fail s1).1).n_rx = s1.n_rx ∧
    ((rx_ended_fail s1).1).n_rx_total = s1.n_rx_total ∧
    ((rx_ended_fail s1).1).n_tx = s1.n_tx ∧
    ((rx_ended_fail s1).1).header_pkt_type = s1.header_pkt_type ∧
    ((rx_ended_fail s1).1).payload_buf = s1.payload_buf ∧
    writeCount (rx_ended_fail s1).2 = 0 := by
  simp only [rx_ended_fail]
  split_ifs <;> simp_all [rx_failed_fields]

/-- Behaviour summary of glossy_rx_ended for the trace invariants: the
callback never changes the initiator id or n_tx; the local pkt_type is
either kept or replaced by the received byte 0; the callback can only
keep the activity flag or clear it, and a packet carrying n_tx_max = 0
can never clear it; and either the reception is rejected (counters and
buffer untouched, no buffer write) or it is successful (n_rx_total
increments, n_rx increments mod 256, and the caller buffer is written
exactly when the node is a receiver whose incremented n_rx is 1). -/
theorem rx_ended_summary (cfg : GlossyConfig) (now : Nat) (rssi : Int)
    (t : Nat) (pkt : List Nat) (s : GlossyState) :
    ((glossy_rx_ended cfg now rssi t pkt s).1).initiator_id = s.initiator_id ∧
    ((glossy_rx_ended cfg now rssi t pkt s).1).n_tx = s.n_tx ∧
    (((glossy_rx_ended cfg now rssi t pkt s).1).header_pkt_type = s.header_pkt_type ∨
     ((glossy_rx_ended cfg now rssi t pkt s).1).header_pkt_type = pkt.getD 0 0) ∧
    (((glossy_rx_ended cfg now rssi t pkt s).1).active = s.active ∨
     ((glossy_rx_ended cfg now rssi t pkt s).1).active = 0) ∧
    (GET_N_TX_MAX (pkt.getD 0 0) = 0 →
      ((glossy_rx_ended cfg now rssi t pkt s).1).active = s.active) ∧
    ((((glossy_rx_ended cfg now rssi t pkt s).1).n_rx_total = s.n_rx_total ∧
      ((glossy_rx_ended cfg now rssi t pkt s).1).n_rx = s.n_rx ∧
      writeCount (glossy_rx_ended cfg now rssi t pkt s).2 = 0) ∨
     (((glossy_rx_ended cfg now rssi t pkt s).1).n_rx_total = s.n_rx_total + 1 ∧
      ((glossy_rx_ended cfg now rssi t pkt s).1).n_rx = u8 (s.n_rx + 1) ∧
      writeCount (glossy_rx_ended cfg now rssi t pkt s).2 =
        (if s.initiator_id ≠ cfg.nodeId ∧ u8 (s.n_rx + 1) = 1 then 1
         else 0))) := by
  simp only [glossy_rx_ended]
  set s0 : GlossyState :=
    {s with t_rx_stop := u64 t, pkt_cnt_crcok := u32 (s.pkt_cnt_crcok + 1)}
    with hs0
  set r := process_glossy_header cfg s0 pkt pkt.length true with hr
  have hp := process_fields cfg s0 pkt pkt.length true
  rw [← hr] at hp
  have h0a : s0.active = s.active := by rw [hs0]
  have h0i : s0.initiator_id = s.initiator_id := by rw [hs0]
  have h0r : s0.n_rx = s.n_rx := by rw [hs0]
  have h0rt : s0.n_rx_total = s.n_rx_total := by rw [hs0]
  have h0t : s0.n_tx = s.n_tx := by rw [hs0]
  have h0h : s0.header_pkt_type = s.header_pkt_type := by rw [hs0]
  by_cases hok : r.2.2 = true
  · have hst := process_stores_header cfg s0 pkt pkt.length (by rw [← hr]; exact hok)
    rw [← hr] at hst
    have hsucc := rx_ended_success_fields cfg now rssi pkt r.1
    rw [if_pos hok]
    refine ⟨?_, ?_, ?_, ?_, ?_, ?_⟩
    · rw [hsucc.1, hp.2.1, h0i]
    · rw [hsucc.2.1, hp.2.2.2.2.1, h0t]
    · exact Or.inr (by rw [hsucc.2.2.1, hst.2])
    · rcases hsucc.2.2.2.1 with h | h
      · exact Or.inl (by rw [h, hp.1, h0a])
      · exact Or.inr h
    · intro hz
      have := hsucc.2.2.2.2.1 (by rw [hst.2, hz])
      rw [this, hp.1, h0a]
    · refine Or.inr ⟨?_, ?_, ?_⟩
      · rw [hsucc.2.2.2.2.2.1, hp.2.2.2.1, h0rt]
      · rw [hsucc.2.2.2.2.2.2.1, hp.2.2.1, h0r]
      · have hw := hsucc.2.2.2.2.2.2.2
        have hpw : writeCount r.2.1 = 0 := by
          rw [hr]
          exact process_writeCount cfg s0 pkt pkt.length true
        simp [hw, hpw, hp.2.1, hp.2.2.1, h0i, h0r, isPayloadCopy]
  · have hfail := rx_ended_fail_fields r.1
    rw [if_neg hok]
    have hpw : writeCount r.2.1 = 0 := by
      rw [hr]
      exact process_writeCount cfg s0 pkt pkt.length true
    refine ⟨?_, ?_, ?_, ?_, ?_, ?_⟩
    · rw [hfail.2.1, hp.2.1, h0i]
    · rw [hfail.2.2.2.2.1, hp.2.2.2.2.1, h0t]
    · rcases hp.2.2.2.2.2.2.2 with h | h
      · exact Or.inl (by rw [hfail.2.2.2.2.2.1, h, h0h])
      · exact Or.inr (by rw [hfail.2.2.2.2.2.1, h])
    · exact Or.inl (by rw [hfail.1, hp.1, h0a])
    · intro _
      rw [hfail.1, hp.1, h0a]
    · refine Or.inl ⟨?_, ?_, ?_⟩
      · rw [hfail.2.2.2.1, hp.2.2.2.1, h0rt]
      · rw [hfail.2.2.1, hp.2.2.1, h0r]
      · simp [hfail.2.2.2.2.2.2.2, hpw, isPayloadCopy]

/-- Behaviour summary of glossy_tx_ended for the trace invariants: the
identity, header type, reception counters and buffer are untouched and
no buffer write happens; n_tx increments mod 256; the activity flag is
kept or cleared; it is certainly cleared when n_tx reaches a nonzero
n_tx_max, and certainly kept when the incremented n_tx differs from
n_tx_max. -/
theorem tx_ended_sync_fields (cfg : GlossyConfig) (s0 : GlossyState) :
    (tx_ended_sync cfg s0).active = s0.active ∧
    (tx_ended_sync cfg s0).initiator_id = s0.initiator_id ∧
    (tx_ended_sync cfg s0).n_rx = s0.n_rx ∧
    (tx_ended_sync cfg s0).n_rx_total = s0.n_rx_total ∧
    (tx_ended_sync cfg s0).n_tx = s0.n_tx ∧
    (tx_ended_sync cfg s0).header_pkt_type = s0.header_pkt_type ∧
    (tx_ended_sync cfg s0).payload_buf = s0.payload_buf := by
  simp only [tx_ended_sync]
  split_ifs <;> simp [update_t_ref, add_T_slot_fields]

theorem tx_ended_summary (cfg : GlossyConfig) (now t : Nat) (s : GlossyState) :
    ((glossy_tx_ended cfg now t s).1).initiator_id = s.initiator_id ∧
    ((glossy_tx_ended cfg now t s).1).header_pkt_type = s.header_pkt_type ∧
    ((glossy_tx_ended cfg now t s).1).n_rx = s.n_rx ∧
    ((glossy_tx_ended cfg now t s).1).n_rx_total = s.n_rx_total ∧
    ((glossy_tx_ended cfg now t s).1).payload_buf = s.payload_buf ∧
    writeCount (glossy_tx_ended cfg now t s).2 = 0 ∧
    ((glossy_tx_ended cfg now t s).1).n_tx = u8 (s.n_tx + 1) ∧
    (((glossy_tx_ended cfg now t s).1).active = s.active ∨
     ((glossy_tx_ended cfg now t s).1).active = 0) ∧
    (GET_N_TX_MAX s.header_pkt_type ≠ 0 →
      u8 (s.n_tx + 1) = GET_N_TX_MAX s.header_pkt_type →
      ((glossy_tx_ended cfg now t s).1).active = 0) ∧
    (u8 (s.n_tx + 1) ≠ GET_N_TX_MAX s.header_pkt_type →
      ((glossy_tx_ended cfg now t s).1).active = s.active) := by
  simp only [glossy_tx_ended]
  have hsy := tx_ended_sync_fields cfg {s with t_tx_stop := u64 t}
  set s1 := tx_ended_sync cfg {s with t_tx_stop := u64 t} with hs1
  simp only [show s1.active = s.active from hsy.1,
             show s1.initiator_id = s.initiator_id from hsy.2.1,
             show s1.n_rx = s.n_rx from hsy.2.2.1,
             show s1.n_rx_total = s.n_rx_total from hsy.2.2.2.1,
             show s1.n_tx = s.n_tx from hsy.2.2.2.2.1,
             show s1.header_pkt_type = s.header_pkt_type from hsy.2.2.2.2.2.1,
             show s1.payload_buf = s.payload_buf from hsy.2.2.2.2.2.2]
  split_ifs <;>
    simp_all [schedule_timeout_fields, isPayloadCopy] <;>
    tauto

theorem land_fifteen_eq_mod (x : Nat) : x &&& 15 = x % 16 :=
  Nat.and_pow_two_sub_one_eq_mod x 4

theorem lor_mod_sixteen (x y : Nat) : (x ||| y) % 16 = x % 16 ||| y % 16 := by
  have h : (16 : Nat) = 2 ^ 4 := by norm_num
  apply Nat.eq_of_testBit_eq
  intro i
  simp only [h, Nat.testBit_mod_two_pow, Nat.testBit_lor, Bool.and_or_distrib_left]

/-- The n_tx_max nibble of a freshly built header is the masked
n_tx_max argument. -/
theorem GET_N_TX_MAX_SET_PKT_TYPE (cfg : GlossyConfig) (ws ntx : Nat) :
    GET_N_TX_MAX (SET_PKT_TYPE cfg ws ntx) = ntx % 16 := by
  have h224 : ∀ x : Nat, (x &&& 224) % 16 = 0 := by
    intro x
    have he : (224 : Nat) &&& 15 = 0 := by decide
    rw [← land_fifteen_eq_mod, Nat.land_assoc, he, Nat.and_zero]
  have hsb : (if ws ≠ 0 then (16 : Nat) else 0) % 16 = 0 := by
    split_ifs <;> norm_num
  simp only [GET_N_TX_MAX, SET_PKT_TYPE, GLOSSY_COMMON_HEADER,
             land_fifteen_eq_mod, lor_mod_sixteen, h224, hsb]
  simp [Nat.mod_mod_of_dvd]

/-- Field effects of glossy_start: the per-flood counters are cleared,
the header is rebuilt from the arguments, no payload write happens, and
a receiver (the local node is not the initiator) ends up active with
the caller buffer installed. -/
theorem glossy_start_fields (cfg : GlossyConfig) (now init_id : Nat)
    (payloadInit : List Nat) (plen ntx ws : Nat) (cal nv : Bool) (nz : Int)
    (s : GlossyState) :
    ((glossy_start cfg now init_id payloadInit plen ntx ws cal nv nz s).1).initiator_id = u16 init_id ∧
    ((glossy_start cfg now init_id payloadInit plen ntx ws cal nv nz s).1).n_rx = 0 ∧
    ((glossy_start cfg now init_id payloadInit plen ntx ws cal nv nz s).1).n_rx_total = 0 ∧
    ((glossy_start cfg now init_id payloadInit plen ntx ws cal nv nz s).1).n_tx = 0 ∧
    ((glossy_start cfg now init_id payloadInit plen ntx ws cal nv nz s).1).header_pkt_type = SET_PKT_TYPE cfg ws ntx ∧
    writeCount (glossy_start cfg now init_id payloadInit plen ntx ws cal nv nz s).2 = 0 ∧
    (u16 init_id ≠ cfg.nodeId →
      ((glossy_start cfg now init_id payloadInit plen ntx ws cal nv nz s).1).active = 1 ∧
      ((glossy_start cfg now init_id payloadInit plen ntx ws cal nv nz s).1).payload_buf = payloadInit) := by
  simp only [glossy_start]
  split_ifs <;> simp_all [isPayloadCopy]

/-- Summary of a complete reception event (rx_started, then
header_received, then rx_ended on CRC success or rx_failed) for the
trace invariants. -/
theorem runEvent_rxPkt_summary (cfg : GlossyConfig) (tS tE now : Nat)
    (rssi : Int) (pkt : List Nat) (crcOk : Bool) (s : GlossyState) :
    ((runEvent cfg s (GEvent.rxPkt tS tE now rssi pkt crcOk)).1).initiator_id = s.initiator_id ∧
    ((runEvent cfg s (GEvent.rxPkt tS tE now rssi pkt crcOk)).1).n_tx = s.n_tx ∧
    (((runEvent cfg s (GEvent.rxPkt tS tE now rssi pkt crcOk)).1).header_pkt_type = s.header_pkt_type ∨
     ((runEvent cfg s (GEvent.rxPkt tS tE now rssi pkt crcOk)).1).header_pkt_type = pkt.getD 0 0) ∧
    (((runEvent cfg s (GEvent.rxPkt tS tE now rssi pkt crcOk)).1).active = s.active ∨
     ((runEvent cfg s (GEvent.rxPkt tS tE now rssi pkt crcOk)).1).active = 0) ∧
    (GET_N_TX_MAX (pkt.getD 0 0) = 0 →
      ((runEvent cfg s (GEvent.rxPkt tS tE now rssi pkt crcOk)).1).active = s.active) ∧
    ((((runEvent cfg s (GEvent.rxPkt tS tE now rssi pkt crcOk)).1).n_rx_total = s.n_rx_total ∧
      ((runEvent cfg s (GEvent.rxPkt tS tE now rssi pkt crcOk)).1).n_rx = s.n_rx ∧
      writeCount (runEvent cfg s (GEvent.rxPkt tS tE now rssi pkt crcOk)).2 = 0) ∨
     (((runEvent cfg s (GEvent.rxPkt tS tE now rssi pkt crcOk)).1).n_rx_total = s.n_rx_total + 1 ∧
      ((runEvent cfg s (GEvent.rxPkt tS tE now rssi pkt crcOk)).1).n_rx = u8 (s.n_rx + 1) ∧
      writeCount (runEvent cfg s (GEvent.rxPkt tS tE now rssi pkt crcOk)).2 =
        (if s.initiator_id ≠ cfg.nodeId ∧ u8 (s.n_rx + 1) = 1 then 1
         else 0))) := by
  simp only [runEvent]
  set q1 := glossy_rx_started cfg tS s with hq1
  obtain ⟨h1a, h1i, h1r, h1rt, h1t, h1h, h1ok, h1b, h1w⟩ :=
    rx_started_fields cfg tS s
  rw [← hq1] at h1a h1i h1r h1rt h1t h1h h1ok h1b h1w
  set q2 := glossy_header_received cfg pkt pkt.length q1.1 with hq2
  obtain ⟨h2a, h2i, h2r, h2rt, h2t, h2h, h2b, h2w⟩ :=
    header_received_fields cfg pkt pkt.length q1.1
  rw [← hq2] at h2a h2i h2r h2rt h2t h2h h2b h2w
  by_cases hok : q2.2 = true
  · rw [if_pos hok]
    by_cases hcrc : crcOk = true
    · rw [if_pos hcrc]
      obtain ⟨h3i, h3t, h3h, h3a, h3z, h3d⟩ :=
        rx_ended_summary cfg now rssi tE pkt q2.1.1
      refine ⟨?_, ?_, ?_, ?_, ?_, ?_⟩
      · rw [h3i, h2i, h1i]
      · rw [h3t, h2t, h1t]
      · rcases h3h with h | h
        · rcases h2h with h' | h'
          · exact Or.inl (by rw [h, h', h1h])
          · exact Or.inr (by rw [h, h'])
        · exact Or.inr h
      · rcases h3a with h | h
        · exact Or.inl (by rw [h, h2a, h1a])
        · exact Or.inr h
      · intro hz
        rw [h3z hz, h2a, h1a]
      · rcases h3d with ⟨ha, hb, hc⟩ | ⟨ha, hb, hc⟩
        · refine Or.inl ⟨by rw [ha, h2rt, h1rt], by rw [hb, h2r, h1r], ?_⟩
          simp [hc, h1w, h2w]
        · refine Or.inr ⟨by rw [ha, h2rt, h1rt], by rw [hb, h2r, h1r], ?_⟩
          simp [hc, h2i, h1i, h2r, h1r, h1w, h2w]
    · rw [if_neg hcrc]
      obtain ⟨h4a, h4i, h4r, h4rt, h4t, h4h, h4b, h4w⟩ :=
        rx_failed_fields q2.1.1
      refine ⟨by rw [h4i, h2i, h1i], by rw [h4t, h2t, h1t], ?_, ?_, ?_, ?_⟩
      · rcases h2h with h' | h'
        · exact Or.inl (by rw [h4h, h', h1h])
        · exact Or.inr (by rw [h4h, h'])
      · exact Or.inl (by rw [h4a, h2a, h1a])
      · intro _
        rw [h4a, h2a, h1a]
      · refine Or.inl ⟨by rw [h4rt, h2rt, h1rt], by rw [h4r, h2r, h1r], ?_⟩
        simp [h4w, h1w, h2w]
  · rw [if_neg hok]
    refine ⟨by rw [h2i, h1i], by rw [h2t, h1t], ?_, ?_, ?_, ?_⟩
    · rcases h2h with h' | h'
      · exact Or.inl (by rw [h', h1h])
      · exact Or.inr h'
    · exact Or.inl (by rw [h2a, h1a])
    · intro _
      rw [h2a, h1a]
    · refine Or.inl ⟨by rw [h2rt, h1rt], by rw [h2r, h1r], ?_⟩
      simp [h1w, h2w]

/-- Summary of a completed transmission event (tx_started then
tx_ended). -/
theorem runEvent_txDone_summary (cfg : GlossyConfig) (tS tE now : Nat)
    (s : GlossyState) :
    ((runEvent cfg s (GEvent.txDone tS tE now)).1).initiator_id = s.initiator_id ∧
    ((runEvent cfg s (GEvent.txDone tS tE now)).1).header_pkt_type = s.header_pkt_type ∧
    ((runEvent cfg s (GEvent.txDone tS tE now)).1).n_rx = s.n_rx ∧
    ((runEvent cfg s (GEvent.txDone tS tE now)).1).n_rx_total = s.n_rx_total ∧
    ((runEvent cfg s (GEvent.txDone tS tE now)).1).payload_buf = s.payload_buf ∧
    writeCount (runEvent cfg s (GEvent.txDone tS tE now)).2 = 0 ∧
    ((runEvent cfg s (GEvent.txDone tS tE now)).1).n_tx = u8 (s.n_tx + 1) ∧
    (((runEvent cfg s (GEvent.txDone tS tE now)).1).active = s.active ∨
     ((runEvent cfg s (GEvent.txDone tS tE now)).1).active = 0) ∧
    (GET_N_TX_MAX s.header_pkt_type ≠ 0 →
      u8 (s.n_tx + 1) = GET_N_TX_MAX s.header_pkt_type →
      ((runEvent cfg s (GEvent.txDone tS tE now)).1).active = 0) ∧
    (u8 (s.n_tx + 1) ≠ GET_N_TX_MAX s.header_pkt_type →
      ((runEvent cfg s (GEvent.txDone tS tE now)).1).active = s.active) := by
  simp only [runEvent]
  have h := tx_ended_summary cfg now tE (glossy_tx_started tS s)
  simpa [glossy_tx_started] using h

/-- Summary of a radio-error event. -/
theorem runEvent_rxTxErr_summary (cfg : GlossyConfig) (s : GlossyState) :
    ((runEvent cfg s GEvent.rxTxErr).1).initiator_id = s.initiator_id ∧
    ((runEvent cfg s GEvent.rxTxErr).1).header_pkt_type = s.header_pkt_type ∧
    ((runEvent cfg s GEvent.rxTxErr).1).n_rx = s.n_rx ∧
    ((runEvent cfg s GEvent.rxTxErr).1).n_rx_total = s.n_rx_total ∧
    ((runEvent cfg s GEvent.rxTxErr).1).n_tx = s.n_tx ∧
    ((runEvent cfg s GEvent.rxTxErr).1).active = s.active ∧
    writeCount (runEvent cfg s GEvent.rxTxErr).2 = 0 := by
  simp only [runEvent]
  obtain ⟨ha, hi, hr, hrt, ht, hh, hb, hw⟩ := rx_tx_error_fields s
  exact ⟨hi, hh, hr, hrt, ht, ha, hw⟩

/-- Summary of a timeout-callback event. -/
theorem runEvent_timeout_summary (cfg : GlossyConfig) (now : Nat)
    (busy : Bool) (s : GlossyState) :
    ((runEvent cfg s (GEvent.timeoutFire now busy)).1).initiator_id = s.initiator_id ∧
    ((runEvent cfg s (GEvent.timeoutFire now busy)).1).header_pkt_type = s.header_pkt_type ∧
    ((runEvent cfg s (GEvent.timeoutFire now busy)).1).n_rx = s.n_rx ∧
    ((runEvent cfg s (GEvent.timeoutFire now busy)).1).n_rx_total = s.n_rx_total ∧
    ((runEvent cfg s (GEvent.timeoutFire now busy)).1).n_tx = s.n_tx ∧
    ((runEvent cfg s (GEvent.timeoutFire now busy)).1).active = s.active ∧
    writeCount (runEvent cfg s (GEvent.timeoutFire now busy)).2 = 0 := by
  simp only [runEvent]
  obtain ⟨ha, hi, hr, hrt, ht, hh, hb, hw⟩ := timeout_expired_fields cfg now busy s
  exact ⟨hi, hh, hr, hrt, ht, ha, hw⟩

/-- Summary of an external glossy_stop event. -/
theorem runEvent_stop_summary (cfg : GlossyConfig) (now : Nat)
    (s : GlossyState) :
    ((runEvent cfg s (GEvent.stopEv now)).1).initiator_id = s.initiator_id ∧
    ((runEvent cfg s (GEvent.stopEv now)).1).header_pkt_type = s.header_pkt_type ∧
    ((runEvent cfg s (GEvent.stopEv now)).1).n_rx = s.n_rx ∧
    ((runEvent cfg s (GEvent.stopEv now)).1).n_rx_total = s.n_rx_total ∧
    ((runEvent cfg s (GEvent.stopEv now)).1).n_tx = s.n_tx ∧
    ((runEvent cfg s (GEvent.stopEv now)).1).active = 0 ∧
    writeCount (runEvent cfg s (GEvent.stopEv now)).2 = 0 := by
  simp only [runEvent]
  exact ⟨stop_initiator cfg now s, stop_pkt_type cfg now s, stop_n_rx cfg now s,
         stop_n_rx_total cfg now s, stop_n_tx cfg now s, stop_active cfg now s,
         stop_writeCount cfg now s⟩

/-- C1: whenever glossy_rx_ended retransmits (writes a packet with a
2-byte header, i.e. a relay-counter-carrying header, into the TX FIFO),
the relay counter in the outgoing header equals the relay counter of
the received packet (its byte at offset 1) plus 1, as an 8-bit
value. -/
theorem rx_ended_relay_increment (cfg : GlossyConfig) (now : Nat)
    (rssi : Int) (t : Nat) (pkt : List Nat) (s : GlossyState)
    (hdr py : List Nat)
    (hmem : (hdr, py) ∈ txFifoWrites (glossy_rx_ended cfg now rssi t pkt s).2)
    (hlen : hdr.length = 2) :
    hdr.getD 1 0 = u8 (pkt.getD 1 0 + 1) := by
  simp only [glossy_rx_ended] at hmem
  set s0 : GlossyState :=
    {s with t_rx_stop := u64 t, pkt_cnt_crcok := u32 (s.pkt_cnt_crcok + 1)}
    with hs0
  set r := process_glossy_header cfg s0 pkt pkt.length true with hr
  have hpw : txFifoWrites r.2.1 = [] := by
    rw [hr]
    exact process_txFifoWrites cfg s0 pkt pkt.length true
  by_cases hok : r.2.2 = true
  · rw [if_pos hok] at hmem
    simp only [txFifoWrites_append, hpw] at hmem
    have hm2 : (hdr, py) ∈ txFifoWrites (rx_ended_success cfg now rssi pkt r.1).2 := by
      simpa [txFifoWrites] using hmem
    have hhdr := rx_ended_success_fifo cfg now rssi pkt r.1 hdr py hm2
    have hst := process_stores_header cfg s0 pkt pkt.length (by rw [← hr]; exact hok)
    rw [← hr] at hst
    by_cases hl : glossy_header_len cfg
        {r.1 with header_relay_cnt := u8 (r.1.header_relay_cnt + 1)} = 2
    · rw [hhdr]
      simp only [headerWireBytes, if_pos hl]
      simp [hst.1]
    · rw [hhdr] at hlen
      simp only [headerWireBytes, if_neg hl] at hlen
      simp at hlen
  · rw [if_neg hok] at hmem
    simp only [txFifoWrites_append, hpw, rx_ended_fail_txFifoWrites] at hmem
    simp [txFifoWrites] at hmem

/-- C1 witness: a sync receiver that gets a packet with relay counter 7
writes a header with relay counter 8 into the TX FIFO. -/
theorem rx_ended_relay_increment_witness :
    ([176, 8], [50, 51, 52, 53]) ∈
      txFifoWrites (glossy_rx_ended cfg0 0 0 0 pktS syncRecvStart).2 ∧
    ([176, 8] : List Nat).length = 2 ∧
    ([176, 8] : List Nat).getD 1 0 = u8 (pktS.getD 1 0 + 1) :=
  ⟨by decide, by decide,
   rx_ended_relay_increment cfg0 0 0 0 pktS syncRecvStart [176, 8]
     [50, 51, 52, 53] (by decide) (by decide)⟩

/-- C4: before header_ok is latched, process_glossy_header accepts a
received header iff the common-header tag matches, the sync bit equals
the local one (the 1-bit sync field has no unknown sentinel, so the
claim's unless-unknown disjunct is vacuous), the n_tx_max field equals
the local value or the local value is the unknown sentinel, the packet
length minus the header length equals the local payload_len or the
local value is the unknown sentinel, and the packet is not longer than
the maximal packet length. -/
theorem process_header_accept_iff (cfg : GlossyConfig) (s : GlossyState)
    (pkt : List Nat) (pkt_len : Nat) (crc_ok : Bool)
    (h : s.header_ok = 0) :
    (process_glossy_header cfg s pkt pkt_len crc_ok).2.2 = true ↔
      headerAcceptSpec cfg s pkt pkt_len := by
  simp only [process_glossy_header, headerAcceptSpec, h]
  split_ifs <;> simp_all <;> omega

/-- C4 witness: the freshly started receiver recvStart (header_ok not
latched) accepts pktA. -/
theorem process_header_accept_iff_witness :
    recvStart.header_ok = 0 ∧
    (process_glossy_header cfg0 recvStart pktA 5 true).2.2 = true ∧
    headerAcceptSpec cfg0 recvStart pktA 5 :=
  ⟨by decide, by decide,
   (process_header_accept_iff cfg0 recvStart pktA 5 true (by decide)).mp
     (by decide)⟩

/-- C5 counterexample: a late glossy_tx_ended delivered while the flood
is inactive does mutate the flood state (it increments n_tx on the
zero-initialised inactive state), so the claim that every radio
callback leaves an inactive flood state unchanged is false. -/
theorem late_tx_ended_mutates_counterexample :
    initState.active = 0 ∧
    (glossy_tx_ended cfg0 0 0 initState).1 ≠ initState ∧
    ((glossy_tx_ended cfg0 0 0 initState).1).n_tx = 1 := by
  decide

/-- C5 (amended): a late radio callback delivered while the flood is
inactive never re-activates it — active stays 0 across all six
callbacks — although timestamps, counters and statistics may still be
mutated. -/
theorem callbacks_preserve_inactive (cfg : GlossyConfig) (s : GlossyState)
    (h : s.active = 0) :
    (∀ t, ((glossy_rx_started cfg t s).1).active = 0) ∧
    (∀ t, (glossy_tx_started t s).active = 0) ∧
    (∀ pkt n, ((glossy_header_received cfg pkt n s).1.1).active = 0) ∧
    (∀ now rssi t pkt, ((glossy_rx_ended cfg now rssi t pkt s).1).active = 0) ∧
    (∀ now t, ((glossy_tx_ended cfg now t s).1).active = 0) ∧
    ((glossy_rx_failed s).1).active = 0 ∧
    ((glossy_rx_tx_error s).1).active = 0 := by
  refine ⟨?_, ?_, ?_, ?_, ?_, ?_, ?_⟩
  · intro t
    rw [(rx_started_fields cfg t s).1, h]
  · intro t
    simp [glossy_tx_started, h]
  · intro pkt n
    rw [(header_received_fields cfg pkt n s).1, h]
  · intro now rssi t pkt
    rcases (rx_ended_summary cfg now rssi t pkt s).2.2.2.1 with h1 | h1
    · rw [h1, h]
    · exact h1
  · intro now t
    rcases (tx_ended_summary cfg now t s).2.2.2.2.2.2.2.1 with h1 | h1
    · rw [h1, h]
    · exact h1
  · rw [(rx_failed_fields s).1, h]
  · rw [(rx_tx_error_fields s).1, h]

/-- C5 witness: the amended preservation evaluated on the inactive
initial state. -/
theorem callbacks_preserve_inactive_witness :
    initState.active = 0 ∧
    ((glossy_tx_ended cfg0 0 0 initState).1).active = 0 ∧
    ((glossy_rx_ended cfg0 0 0 0 pktA initState).1).active = 0 :=
  ⟨by decide,
   (callbacks_preserve_inactive cfg0 initState (by decide)).2.2.2.2.1 0 0,
   (callbacks_preserve_inactive cfg0 initState (by decide)).2.2.2.1 0 0 0 pktA⟩

/-- C2 counterexample: at glossy_stop with relay_cnt_t_ref = 2,
T_slot_sum = 3, n_T_slot = 2 and t_ref = 100, the code decrements t_ref
by (2 * 3) / 2 = 3 (product first), giving 97, while the claim's
relay_cnt_t_ref * (T_slot_sum / n_T_slot) = 2 * (3 / 2) = 2 would give
98: the claim's parenthesisation is wrong under integer division. -/
theorem stop_t_ref_divide_first_counterexample :
    stateC2.active = 1 ∧ stateC2.t_ref_updated = 1 ∧ stateC2.n_T_slot > 0 ∧
    ((glossy_stop cfg0 0 stateC2).1.1).t_ref = 97 ∧
    sub64 stateC2.t_ref
      (stateC2.relay_cnt_t_ref * (stateC2.T_slot_sum / stateC2.n_T_slot)) = 98 := by
  decide

/-- C2 (amended): at glossy_stop on an active flood, if t_ref_updated
is set then t_ref is decremented by (relay_cnt_t_ref * T_slot_sum) /
n_T_slot — the product computed first, in 64-bit arithmetic — when
n_T_slot > 0, and by relay_cnt_t_ref * T_slot_estimated (32-bit) when
n_T_slot == 0; if t_ref_updated is not set, t_ref is left unchanged. -/
theorem stop_t_ref_back_projection (cfg : GlossyConfig) (now : Nat)
    (s : GlossyState) (h : s.active ≠ 0) :
    ((glossy_stop cfg now s).1.1).t_ref =
      if s.t_ref_updated ≠ 0 then
        if s.n_T_slot > 0 then
          sub64 s.t_ref (u64 (s.relay_cnt_t_ref * s.T_slot_sum) / s.n_T_slot)
        else
          sub64 s.t_ref (u32 (s.relay_cnt_t_ref * s.T_slot_estimated))
      else s.t_ref := by
  simp only [glossy_stop, if_pos h]
  split_ifs <;> simp_all

/-- C2 witness: the amended back-projection evaluated on stateC2. -/
theorem stop_t_ref_back_projection_witness :
    stateC2.active ≠ 0 ∧
    ((glossy_stop cfg0 0 stateC2).1.1).t_ref =
      (if stateC2.t_ref_updated ≠ 0 then
        if stateC2.n_T_slot > 0 then
          sub64 stateC2.t_ref
            (u64 (stateC2.relay_cnt_t_ref * stateC2.T_slot_sum) / stateC2.n_T_slot)
        else
          sub64 stateC2.t_ref
            (u32 (stateC2.relay_cnt_t_ref * stateC2.T_slot_estimated))
      else stateC2.t_ref) :=
  ⟨by decide, stop_t_ref_back_projection cfg0 0 stateC2 (by decide)⟩

/-- Helper: glossy_stop on an inactive flood is the identity with no
side effects. -/
theorem glossy_stop_of_inactive (cfg : GlossyConfig) (now : Nat)
    (s : GlossyState) (h : s.active = 0) :
    glossy_stop cfg now s = ((s, []), s.n_rx) := by
  simp [glossy_stop, h]

/-- C8: calling glossy_stop while the flood is inactive performs no
radio or timer side effects, leaves every field of the state unchanged
and returns n_rx; moreover, after any glossy_stop call a second
glossy_stop is exactly such a no-op and returns the same value. -/
theorem stop_inactive_noop (cfg : GlossyConfig) (now : Nat) (s : GlossyState)
    (h : s.active = 0) :
    glossy_stop cfg now s = ((s, []), s.n_rx) ∧
    (∀ n1 n2 : Nat, ∀ s0 : GlossyState,
      glossy_stop cfg n2 ((glossy_stop cfg n1 s0).1.1) =
        (((glossy_stop cfg n1 s0).1.1, []), (glossy_stop cfg n1 s0).2)) := by
  refine ⟨glossy_stop_of_inactive cfg now s h, ?_⟩
  intro n1 n2 s0
  have h1 := glossy_stop_fields cfg n1 s0
  rw [glossy_stop_of_inactive cfg n2 ((glossy_stop cfg n1 s0).1.1) h1.1,
      h1.2.1, h1.2.2.1]

/-- C7 counterexample: with T_slot_estimated = 100 the measurement 110
lies within T_slot_estimated plus/minus T_SLOT_TOLERANCE (inclusive
reading), yet add_T_slot_measurement leaves the state unchanged: the
code uses strict comparisons, so the boundary of the window is
rejected. -/
theorem add_T_slot_boundary_counterexample :
    stateC7.T_slot_estimated = 100 ∧
    110 ≤ stateC7.T_slot_estimated + T_SLOT_TOLERANCE ∧
    stateC7.T_slot_estimated ≤ 110 + T_SLOT_TOLERANCE ∧
    add_T_slot_measurement stateC7 110 = stateC7 := by
  decide

/-- C7 (amended): add_T_slot_measurement records a measurement iff it
lies strictly inside the open window (T_slot_estimated -
T_SLOT_TOLERANCE, T_slot_estimated + T_SLOT_TOLERANCE); consequently
every recorded measurement m satisfies the inclusive bound
abs (m - T_slot_estimated) ≤ T_SLOT_TOLERANCE, and a measurement
outside the open window leaves T_slot_sum and n_T_slot unchanged.
Stated for estimates away from the uint32 wrap-around. -/
theorem add_T_slot_measurement_window (s : GlossyState) (m : Nat)
    (hlo : T_SLOT_TOLERANCE ≤ s.T_slot_estimated)
    (hhi : s.T_slot_estimated + T_SLOT_TOLERANCE < 4294967296) :
    (s.T_slot_estimated - T_SLOT_TOLERANCE < m ∧
       m < s.T_slot_estimated + T_SLOT_TOLERANCE →
      add_T_slot_measurement s m =
        {s with T_slot_sum := u64 (s.T_slot_sum + m),
                n_T_slot := u8 (s.n_T_slot + 1)} ∧
      m ≤ s.T_slot_estimated + T_SLOT_TOLERANCE ∧
      s.T_slot_estimated ≤ m + T_SLOT_TOLERANCE) ∧
    (¬(s.T_slot_estimated - T_SLOT_TOLERANCE < m ∧
       m < s.T_slot_estimated + T_SLOT_TOLERANCE) →
      add_T_slot_measurement s m = s) := by
  have e1 : u32 (s.T_slot_estimated + 4294967296 - T_SLOT_TOLERANCE) =
      s.T_slot_estimated - T_SLOT_TOLERANCE := by
    simp only [u32, T_SLOT_TOLERANCE] at *
    omega
  have e2 : u32 (s.T_slot_estimated + T_SLOT_TOLERANCE) =
      s.T_slot_estimated + T_SLOT_TOLERANCE := by
    simp only [u32, T_SLOT_TOLERANCE] at *
    omega
  constructor
  · intro hin
    refine ⟨?_, by omega, by omega⟩
    simp only [add_T_slot_measurement, e1, e2, if_pos hin]
  · intro hout
    simp only [add_T_slot_measurement, e1, e2, if_neg hout]

/-- C7 witness: a measurement of 105 against an estimate of 100 is
strictly inside the window and is recorded. -/
theorem add_T_slot_measurement_window_witness :
    T_SLOT_TOLERANCE ≤ stateC7.T_slot_estimated ∧
    stateC7.T_slot_estimated + T_SLOT_TOLERANCE < 4294967296 ∧
    stateC7.T_slot_estimated - T_SLOT_TOLERANCE < 105 ∧
    105 < stateC7.T_slot_estimated + T_SLOT_TOLERANCE ∧
    add_T_slot_measurement stateC7 105 =
      {stateC7 with T_slot_sum := u64 (stateC7.T_slot_sum + 105),
                    n_T_slot := u8 (stateC7.n_T_slot + 1)} :=
  ⟨by decide, by decide, by decide, by decide,
   ((add_T_slot_measurement_window stateC7 105 (by decide) (by decide)).1
      ⟨by decide, by decide⟩).1⟩

/-- C10: the statistics accessors guard their divisions; under the
counter invariants both results lie in the interval from 0 to 10000
(they are Nat values, so nonnegativity is inherent). -/
theorem per_fsr_division_guard (s : GlossyState)
    (h1 : s.pkt_cnt_crcok ≤ s.pkt_cnt) (h2 : s.pkt_cnt < 4294967296)
    (h3 : s.flood_cnt_success ≤ s.flood_cnt) (h4 : s.flood_cnt < 4294967296) :
    (s.pkt_cnt = 0 → glossy_get_per s = 0) ∧
    (s.pkt_cnt ≠ 0 →
      glossy_get_per s = 10000 - s.pkt_cnt_crcok * 10000 / s.pkt_cnt) ∧
    glossy_get_per s ≤ 10000 ∧
    (s.flood_cnt = 0 → glossy_get_fsr s = 10000) ∧
    (s.flood_cnt ≠ 0 →
      glossy_get_fsr s = s.flood_cnt_success * 10000 / s.flood_cnt) ∧
    glossy_get_fsr s ≤ 10000 := by
  have hq : s.pkt_cnt ≠ 0 →
      s.pkt_cnt_crcok * 10000 / s.pkt_cnt ≤ 10000 := by
    intro hne
    have : s.pkt_cnt_crcok * 10000 ≤ s.pkt_cnt * 10000 := by
      exact Nat.mul_le_mul_right 10000 h1
    calc s.pkt_cnt_crcok * 10000 / s.pkt_cnt
        ≤ s.pkt_cnt * 10000 / s.pkt_cnt := Nat.div_le_div_right this
      _ = 10000 := Nat.mul_div_cancel_left 10000 (Nat.pos_of_ne_zero hne)
  have hf : s.flood_cnt ≠ 0 →
      s.flood_cnt_success * 10000 / s.flood_cnt ≤ 10000 := by
    intro hne
    have : s.flood_cnt_success * 10000 ≤ s.flood_cnt * 10000 := by
      exact Nat.mul_le_mul_right 10000 h3
    calc s.flood_cnt_success * 10000 / s.flood_cnt
        ≤ s.flood_cnt * 10000 / s.flood_cnt := Nat.div_le_div_right this
      _ = 10000 := Nat.mul_div_cancel_left 10000 (Nat.pos_of_ne_zero hne)
  have hu64p : u64 (s.pkt_cnt_crcok * 10000) = s.pkt_cnt_crcok * 10000 := by
    simp only [u64]
    omega
  have hu64f : u64 (s.flood_cnt_success * 10000) = s.flood_cnt_success * 10000 := by
    simp only [u64]
    omega
  refine ⟨?_, ?_, ?_, ?_, ?_, ?_⟩
  · intro hp
    simp [glossy_get_per, hp]
  · intro hp
    have hqq := hq hp
    simp only [glossy_get_per, if_pos hp, u16, hu64p]
    generalize s.pkt_cnt_crcok * 10000 / s.pkt_cnt = q at hqq ⊢
    omega
  · by_cases hp : s.pkt_cnt = 0
    · simp [glossy_get_per, hp]
    · have hqq := hq hp
      simp only [glossy_get_per, if_pos hp, u16, hu64p]
      generalize s.pkt_cnt_crcok * 10000 / s.pkt_cnt = q at hqq ⊢
      omega
  · intro hfl
    simp [glossy_get_fsr, hfl]
  · intro hfl
    have hff := hf hfl
    simp only [glossy_get_fsr, if_pos hfl, u16, hu64f]
    generalize s.flood_cnt_success * 10000 / s.flood_cnt = q at hff ⊢
    omega
  · by_cases hfl : s.flood_cnt = 0
    · simp [glossy_get_fsr, hfl]
    · have hff := hf hfl
      simp only [glossy_get_fsr, if_pos hfl, u16, hu64f]
      generalize s.flood_cnt_success * 10000 / s.flood_cnt = q at hff ⊢
      omega

/-- C10 witness: evaluated on statsState (4 packets, 3 CRC-ok, 4
floods, 1 successful). -/
theorem per_fsr_division_guard_witness :
    statsState.pkt_cnt_crcok ≤ statsState.pkt_cnt ∧
    statsState.pkt_cnt < 4294967296 ∧
    statsState.pkt_cnt ≠ 0 ∧
    glossy_get_per statsState =
      10000 - statsState.pkt_cnt_crcok * 10000 / statsState.pkt_cnt ∧
    glossy_get_fsr statsState =
      statsState.flood_cnt_success * 10000 / statsState.flood_cnt :=
  ⟨by decide, by decide, by decide,
   (per_fsr_division_guard statsState (by decide) (by decide) (by decide)
      (by decide)).2.1 (by decide),
   (per_fsr_division_guard statsState (by decide) (by decide) (by decide)
      (by decide)).2.2.2.2.1 (by decide)⟩

/-- Trace invariant for the reception counter and the payload-buffer
writes: along any event trace, n_rx stays congruent to the untruncated
reception count mod 256, the untruncated count is monotone, and the
number of payload-buffer writes on a receiver equals the number of
times the untruncated count crossed a 256-boundary past 1 (the ceiling
of count / 256). -/
theorem runTrace_rx_invariant (cfg : GlossyConfig) :
    ∀ (events : List GEvent) (s : GlossyState),
    s.initiator_id ≠ cfg.nodeId →
    s.n_rx = s.n_rx_total % 256 →
    ((runTrace cfg s events).1).initiator_id = s.initiator_id ∧
    ((runTrace cfg s events).1).n_rx =
      ((runTrace cfg s events).1).n_rx_total % 256 ∧
    s.n_rx_total ≤ ((runTrace cfg s events).1).n_rx_total ∧
    writeCount (runTrace cfg s events).2 =
      (((runTrace cfg s events).1).n_rx_total + 255) / 256 -
        (s.n_rx_total + 255) / 256 := by
  intro events
  induction events with
  | nil =>
    intro s h1 h2
    refine ⟨rfl, h2, Nat.le_refl _, ?_⟩
    simp [runTrace]
  | cons e rest ih =>
    intro s h1 h2
    have hstep : ((runEvent cfg s e).1).initiator_id = s.initiator_id ∧
        ((((runEvent cfg s e).1).n_rx_total = s.n_rx_total ∧
          ((runEvent cfg s e).1).n_rx = s.n_rx ∧
          writeCount (runEvent cfg s e).2 = 0) ∨
         (((runEvent cfg s e).1).n_rx_total = s.n_rx_total + 1 ∧
          ((runEvent cfg s e).1).n_rx = u8 (s.n_rx + 1) ∧
          writeCount (runEvent cfg s e).2 =
            (if s.initiator_id ≠ cfg.nodeId ∧ u8 (s.n_rx + 1) = 1 then 1
             else 0))) := by
      cases e with
      | rxPkt tS tE now rssi pkt crcOk =>
        obtain ⟨hi, _, _, _, _, hd⟩ :=
          runEvent_rxPkt_summary cfg tS tE now rssi pkt crcOk s
        exact ⟨hi, hd⟩
      | txDone tS tE now =>
        obtain ⟨hi, _, hr, hrt, _, hw, _⟩ :=
          runEvent_txDone_summary cfg tS tE now s
        exact ⟨hi, Or.inl ⟨hrt, hr, hw⟩⟩
      | rxTxErr =>
        obtain ⟨hi, _, hr, hrt, _, _, hw⟩ := runEvent_rxTxErr_summary cfg s
        exact ⟨hi, Or.inl ⟨hrt, hr, hw⟩⟩
      | timeoutFire now busy =>
        obtain ⟨hi, _, hr, hrt, _, _, hw⟩ :=
          runEvent_timeout_summary cfg now busy s
        exact ⟨hi, Or.inl ⟨hrt, hr, hw⟩⟩
      | stopEv now =>
        obtain ⟨hi, _, hr, hrt, _, _, hw⟩ := runEvent_stop_summary cfg now s
        exact ⟨hi, Or.inl ⟨hrt, hr, hw⟩⟩
    simp only [runTrace]
    obtain ⟨hsi, hsd⟩ := hstep
    have h1a : ((runEvent cfg s e).1).initiator_id ≠ cfg.nodeId := by
      rw [hsi]
      exact h1
    have h2a : ((runEvent cfg s e).1).n_rx =
        ((runEvent cfg s e).1).n_rx_total % 256 := by
      rcases hsd with ⟨ha, hb, _⟩ | ⟨ha, hb, _⟩
      · rw [ha, hb]
        exact h2
      · rw [ha, hb, h2]
        simp only [u8]
        omega
    obtain ⟨ihi, ihm, ihle, ihw⟩ := ih (runEvent cfg s e).1 h1a h2a
    refine ⟨by rw [ihi, hsi], ihm, ?_, ?_⟩
    · rcases hsd with ⟨ha, _, _⟩ | ⟨ha, _, _⟩ <;> omega
    · rw [writeCount_append, ihw]
      rcases hsd with ⟨ha, _, hw⟩ | ⟨ha, _, hw⟩
      · rw [hw, ha]
        omega
      · have hw2 : writeCount (runEvent cfg s e).2 =
            if (s.n_rx + 1) % 256 = 1 then 1 else 0 := by
          rw [hw]
          simp [h1, u8]
        by_cases hc : (s.n_rx + 1) % 256 = 1
        · rw [hw2, if_pos hc]
          omega
        · rw [hw2, if_neg hc]
          omega

/-- C3 (amended): during one flood on a receiver, as long as fewer than
256 successful receptions occur (so that the 8-bit n_rx does not wrap),
the caller-provided payload buffer is written exactly once — during the
first successful reception — and it is written iff n_rx is at least 1
at the end; glossy_start itself never writes it.  (With 256 or more
receptions n_rx wraps and the buffer is rewritten at every reception
whose post-increment n_rx is 1.) -/
theorem payload_written_once_below_wrap (cfg : GlossyConfig)
    (now init_id : Nat) (payloadInit : List Nat) (plen ntx ws : Nat)
    (cal nv : Bool) (nz : Int) (sPre : GlossyState) (events : List GEvent)
    (hrecv : u16 init_id ≠ cfg.nodeId)
    (hlt : ((runTrace cfg ((glossy_start cfg now init_id payloadInit plen ntx ws cal nv nz sPre).1) events).1).n_rx_total < 256) :
    writeCount (runTrace cfg ((glossy_start cfg now init_id payloadInit plen ntx ws cal nv nz sPre).1) events).2 =
      (if ((runTrace cfg ((glossy_start cfg now init_id payloadInit plen ntx ws cal nv nz sPre).1) events).1).n_rx = 0 then 0
       else 1) ∧
    ((runTrace cfg ((glossy_start cfg now init_id payloadInit plen ntx ws cal nv nz sPre).1) events).1).n_rx =
      ((runTrace cfg ((glossy_start cfg now init_id payloadInit plen ntx ws cal nv nz sPre).1) events).1).n_rx_total ∧
    writeCount (glossy_start cfg now init_id payloadInit plen ntx ws cal nv nz sPre).2 = 0 := by
  obtain ⟨hsi, hsr, hsrt, _, _, hsw, _⟩ :=
    glossy_start_fields cfg now init_id payloadInit plen ntx ws cal nv nz sPre
  have h1 : ((glossy_start cfg now init_id payloadInit plen ntx ws cal nv nz sPre).1).initiator_id ≠ cfg.nodeId := by
    rw [hsi]
    exact hrecv
  have h2 : ((glossy_start cfg now init_id payloadInit plen ntx ws cal nv nz sPre).1).n_rx =
      ((glossy_start cfg now init_id payloadInit plen ntx ws cal nv nz sPre).1).n_rx_total % 256 := by
    rw [hsr, hsrt]
  obtain ⟨_, ihm, _, ihw⟩ :=
    runTrace_rx_invariant cfg events
      ((glossy_start cfg now init_id payloadInit plen ntx ws cal nv nz sPre).1)
      h1 h2
  rw [hsrt] at ihw
  refine ⟨?_, ?_, hsw⟩
  · rw [ihw, ihm]
    split_ifs <;> omega
  · rw [ihm]
    omega

/-- Splitting a trace: running the concatenation of two event lists is
running them in sequence, concatenating the recorded radio calls. -/
theorem runTrace_append (cfg : GlossyConfig) (a b : List GEvent) :
    ∀ s : GlossyState,
    runTrace cfg s (a ++ b) =
      ((runTrace cfg (runTrace cfg s a).1 b).1,
       (runTrace cfg s a).2 ++ (runTrace cfg (runTrace cfg s a).1 b).2) := by
  induction a with
  | nil =>
    intro s
    simp [runTrace]
  | cons e rest ih =>
    intro s
    simp only [List.cons_append, runTrace]
    simp [ih, List.append_assoc]

theorem runTrace_fst_append (cfg : GlossyConfig) (a b : List GEvent)
    (s : GlossyState) :
    (runTrace cfg s (a ++ b)).1 = (runTrace cfg (runTrace cfg s a).1 b).1 := by
  rw [runTrace_append]

theorem writeCount_runTrace_append (cfg : GlossyConfig) (a b : List GEvent)
    (s : GlossyState) :
    writeCount (runTrace cfg s (a ++ b)).2 =
      writeCount (runTrace cfg s a).2 +
        writeCount (runTrace cfg (runTrace cfg s a).1 b).2 := by
  rw [runTrace_append]
  simp

set_option maxRecDepth 100000 in
theorem c3chunk1 : (runTrace cfg0 recvStart rx64).1 = c3lit64 := by decide

set_option maxRecDepth 100000 in
theorem c3chunk1w : writeCount (runTrace cfg0 recvStart rx64).2 = 1 := by
  decide

set_option maxRecDepth 100000 in
theorem c3chunk2 : (runTrace cfg0 c3lit64 rx64).1 = c3lit128 := by decide

set_option maxRecDepth 100000 in
theorem c3chunk2w : writeCount (runTrace cfg0 c3lit64 rx64).2 = 0 := by
  decide

set_option maxRecDepth 100000 in
theorem c3chunk3 : (runTrace cfg0 c3lit128 rx64).1 = c3lit192 := by decide

set_option maxRecDepth 100000 in
theorem c3chunk3w : writeCount (runTrace cfg0 c3lit128 rx64).2 = 0 := by
  decide

set_option maxRecDepth 100000 in
theorem c3trace_decomp : c3trace256 = rx64 ++ (rx64 ++ (rx64 ++ rx64)) := by
  decide

set_option maxRecDepth 100000 in
/-- C3 counterexample: in a single flood on a receiver, after 256
successful receptions the 8-bit n_rx has wrapped to 0 although the
buffer was written (refuting the written-iff-n_rx-at-least-1 claim),
and reception number 257 — a subsequent successful reception of the
same flood — rewrites the caller buffer with the new payload (refuting
the written-exactly-once claim). -/
theorem payload_rewritten_at_wrap_counterexample :
    c3run256.1.active = 1 ∧
    c3run256.1.n_rx = 0 ∧
    c3run256.1.n_rx_total = 256 ∧
    writeCount c3run256.2 = 1 ∧
    c3run257.1.n_rx_total = 257 ∧
    c3run257.1.payload_buf ≠ c3run256.1.payload_buf := by
  have h1 : c3run256.1 = (runTrace cfg0 c3lit192 rx64).1 := by
    show (runTrace cfg0 recvStart c3trace256).1 = _
    rw [c3trace_decomp, runTrace_fst_append, c3chunk1, runTrace_fst_append,
        c3chunk2, runTrace_fst_append, c3chunk3]
  have h2 : c3run257.1 = (runEvent cfg0 (runTrace cfg0 c3lit192 rx64).1 evB).1 := by
    show (runEvent cfg0 c3run256.1 evB).1 = _
    rw [h1]
  have hw : writeCount c3run256.2 = 1 := by
    show writeCount (runTrace cfg0 recvStart c3trace256).2 = 1
    rw [c3trace_decomp, writeCount_runTrace_append, c3chunk1w, c3chunk1,
        writeCount_runTrace_append, c3chunk2w, c3chunk2,
        writeCount_runTrace_append, c3chunk3w, c3chunk3]
    decide
  refine ⟨?_, ?_, ?_, hw, ?_, ?_⟩
  · rw [h1]
    decide
  · rw [h1]
    decide
  · rw [h1]
    decide
  · rw [h2]
    decide
  · rw [h2, h1]
    decide

/-- C3 witness: the amended statement evaluated on recvStart with two
successful receptions. -/
theorem payload_written_once_below_wrap_witness :
    u16 2 ≠ cfg0.nodeId ∧
    ((runTrace cfg0 ((glossy_start cfg0 0 2 [9, 9, 9, 9] 4 0 0 false false 0 initState).1) [evA, evA]).1).n_rx_total < 256 ∧
    writeCount (runTrace cfg0 ((glossy_start cfg0 0 2 [9, 9, 9, 9] 4 0 0 false false 0 initState).1) [evA, evA]).2 =
      (if ((runTrace cfg0 ((glossy_start cfg0 0 2 [9, 9, 9, 9] 4 0 0 false false 0 initState).1) [evA, evA]).1).n_rx = 0 then 0
       else 1) :=
  ⟨by decide, by decide,
   (payload_written_once_below_wrap cfg0 0 2 [9, 9, 9, 9] 4 0 0 false false 0
      initState [evA, evA] (by decide) (by decide)).1⟩

/-- Trace invariant for the transmission bound: in a flood whose
packets all carry the fixed n_tx_max value m (0 < m ≤ 15) and in which
completed transmissions are only delivered while the flood is active,
the local header keeps n_tx_max = m, n_tx stays strictly below m while
the flood is active, and n_tx never exceeds m. -/
theorem runTrace_n_tx_invariant (cfg : GlossyConfig) (m : Nat)
    (hm : 0 < m) (hm15 : m ≤ 15) :
    ∀ (events : List GEvent) (s : GlossyState),
    GET_N_TX_MAX s.header_pkt_type = m →
    (s.active ≠ 0 → s.n_tx < m) →
    s.n_tx ≤ m →
    rxCarriesNTxMax m events = true →
    txOnlyWhileActive cfg s events = true →
    GET_N_TX_MAX ((runTrace cfg s events).1).header_pkt_type = m ∧
    (((runTrace cfg s events).1).active ≠ 0 →
      ((runTrace cfg s events).1).n_tx < m) ∧
    ((runTrace cfg s events).1).n_tx ≤ m := by
  intro events
  induction events with
  | nil =>
    intro s hh ha hle _ _
    simpa [runTrace] using ⟨hh, ha, hle⟩
  | cons e rest ih =>
    intro s hh ha hle hrx htx
    simp only [txOnlyWhileActive, Bool.and_eq_true] at htx
    have hstep : GET_N_TX_MAX ((runEvent cfg s e).1).header_pkt_type = m ∧
        (((runEvent cfg s e).1).active ≠ 0 → ((runEvent cfg s e).1).n_tx < m) ∧
        ((runEvent cfg s e).1).n_tx ≤ m := by
      cases e with
      | rxPkt tS tE now rssi pkt crcOk =>
        simp only [rxCarriesNTxMax, Bool.and_eq_true, beq_iff_eq] at hrx
        obtain ⟨_, ht, hph, hac, _, _⟩ :=
          runEvent_rxPkt_summary cfg tS tE now rssi pkt crcOk s
        refine ⟨?_, ?_, by rw [ht]; exact hle⟩
        · rcases hph with h | h
          · rw [h, hh]
          · rw [h, hrx.1]
        · intro hne
          rw [ht]
          rcases hac with h | h
          · exact ha (by rw [← h]; exact hne)
          · exact absurd h (by intro hz; rw [hz] at hne; exact hne rfl)
      | txDone tS tE now =>
        have hact : s.active = 1 := by
          have := htx.1
          simp at this
          exact this
        have hlt : s.n_tx < m := ha (by rw [hact]; exact one_ne_zero)
        obtain ⟨_, hph, _, _, _, _, hnt, _, hstp, hkeep⟩ :=
          runEvent_txDone_summary cfg tS tE now s
        have hu : u8 (s.n_tx + 1) = s.n_tx + 1 := by
          simp only [u8]
          omega
        refine ⟨by rw [hph, hh], ?_, by rw [hnt, hu]; omega⟩
        intro hne
        by_cases hreach : s.n_tx + 1 = m
        · have h0 := hstp (by rw [hh]; omega) (by rw [hu, hh, hreach])
          exact absurd h0 hne
        · rw [hnt, hu]
          omega
      | rxTxErr =>
        obtain ⟨_, hph, _, _, ht, hac, _⟩ := runEvent_rxTxErr_summary cfg s
        exact ⟨by rw [hph, hh], by rw [hac, ht]; exact ha, by rw [ht]; exact hle⟩
      | timeoutFire now busy =>
        obtain ⟨_, hph, _, _, ht, hac, _⟩ := runEvent_timeout_summary cfg now busy s
        exact ⟨by rw [hph, hh], by rw [hac, ht]; exact ha, by rw [ht]; exact hle⟩
      | stopEv now =>
        obtain ⟨_, hph, _, _, ht, hac, _⟩ := runEvent_stop_summary cfg now s
        refine ⟨by rw [hph, hh], ?_, by rw [ht]; exact hle⟩
        intro hne
        rw [hac] at hne
        exact absurd rfl hne
    have hrx2 : rxCarriesNTxMax m rest = true := by
      cases e <;> simp_all [rxCarriesNTxMax]
    simp only [runTrace]
    exact ih (runEvent cfg s e).1 hstep.1 hstep.2.1 hstep.2.2 hrx2 htx.2

/-- C6 (amended): on any node that starts a flood with a known nonzero
n_tx_max, if every packet of the flood carries that same n_tx_max and
completed transmissions only happen while the flood is active, then
after the trace — in particular after glossy_stop() — n_tx never
exceeds n_tx_max.  n_rx, in contrast, is not bounded by n_tx_max (see
the counterexample). -/
theorem n_tx_bounded_after_start (cfg : GlossyConfig) (now init_id : Nat)
    (payloadInit : List Nat) (plen ntx ws : Nat) (cal nv : Bool) (nz : Int)
    (sPre : GlossyState) (events : List GEvent)
    (hm : 0 < ntx % 16)
    (hrx : rxCarriesNTxMax (ntx % 16) events = true)
    (htx : txOnlyWhileActive cfg
      ((glossy_start cfg now init_id payloadInit plen ntx ws cal nv nz sPre).1)
      events = true) :
    ((runTrace cfg ((glossy_start cfg now init_id payloadInit plen ntx ws cal nv nz sPre).1) events).1).n_tx ≤ ntx % 16 := by
  obtain ⟨_, _, _, hnt, hph, _, _⟩ :=
    glossy_start_fields cfg now init_id payloadInit plen ntx ws cal nv nz sPre
  have hh : GET_N_TX_MAX ((glossy_start cfg now init_id payloadInit plen ntx ws cal nv nz sPre).1).header_pkt_type = ntx % 16 := by
    rw [hph, GET_N_TX_MAX_SET_PKT_TYPE]
  exact (runTrace_n_tx_invariant cfg (ntx % 16) hm (by omega) events
    ((glossy_start cfg now init_id payloadInit plen ntx ws cal nv nz sPre).1)
    hh (fun _ => by omega) (by omega) hrx htx).2.2

/-- C6 counterexample: a receiver with known n_tx_max = 2 receives
three packets successfully while its transmissions never complete;
after glossy_stop() the reception counter n_rx = 3 exceeds
n_tx_max = 2, refuting the claimed bound n_rx ≤ n_tx_max. -/
theorem n_rx_exceeds_n_tx_max_counterexample :
    GET_N_TX_MAX c6run.1.header_pkt_type = 2 ∧
    c6run.1.active = 0 ∧
    c6run.1.n_rx = 3 ∧
    ¬(c6run.1.n_rx ≤ GET_N_TX_MAX c6run.1.header_pkt_type) := by
  decide

/-- C6 witness: the amended bound evaluated on a receiver started with
n_tx_max 2, one successful reception and an external stop. -/
theorem n_tx_bounded_after_start_witness :
    0 < 2 % 16 ∧
    rxCarriesNTxMax (2 % 16) [evC, GEvent.stopEv 0] = true ∧
    txOnlyWhileActive cfg0
      ((glossy_start cfg0 0 2 [9, 9, 9, 9] 4 2 0 false false 0 initState).1)
      [evC, GEvent.stopEv 0] = true ∧
    ((runTrace cfg0 ((glossy_start cfg0 0 2 [9, 9, 9, 9] 4 2 0 false false 0 initState).1) [evC, GEvent.stopEv 0]).1).n_tx ≤ 2 % 16 :=
  ⟨by decide, by decide, by decide,
   n_tx_bounded_after_start cfg0 0 2 [9, 9, 9, 9] 4 2 0 false false 0 initState
     [evC, GEvent.stopEv 0] (by decide) (by decide) (by decide)⟩

/-- Trace invariant for an unbounded flood: while all received packets
carry n_tx_max = 0 and fewer than 256 transmissions have completed in
total, the flood stays active. -/
theorem runTrace_unbounded_invariant (cfg : GlossyConfig) :
    ∀ (events : List GEvent) (s : GlossyState),
    s.active = 1 →
    GET_N_TX_MAX s.header_pkt_type = 0 →
    unboundedFloodEvents events = true →
    s.n_tx + countTx events < 256 →
    ((runTrace cfg s events).1).active = 1 := by
  intro events
  induction events with
  | nil =>
    intro s ha _ _ _
    simpa [runTrace] using ha
  | cons e rest ih =>
    intro s ha hh hev hcnt
    simp only [runTrace]
    cases e with
    | rxPkt tS tE now rssi pkt crcOk =>
      simp only [unboundedFloodEvents, Bool.and_eq_true, beq_iff_eq] at hev
      obtain ⟨_, ht, hph, _, hz, _⟩ :=
        runEvent_rxPkt_summary cfg tS tE now rssi pkt crcOk s
      have hact : ((runEvent cfg s (GEvent.rxPkt tS tE now rssi pkt crcOk)).1).active = 1 := by
        rw [hz hev.1, ha]
      have hh2 : GET_N_TX_MAX ((runEvent cfg s (GEvent.rxPkt tS tE now rssi pkt crcOk)).1).header_pkt_type = 0 := by
        rcases hph with h | h
        · rw [h, hh]
        · rw [h, hev.1]
      have hcnt2 : ((runEvent cfg s (GEvent.rxPkt tS tE now rssi pkt crcOk)).1).n_tx + countTx rest < 256 := by
        rw [ht]
        simpa [countTx] using hcnt
      exact ih _ hact hh2 hev.2 hcnt2
    | txDone tS tE now =>
      simp only [unboundedFloodEvents] at hev
      simp only [countTx] at hcnt
      obtain ⟨_, hph, _, _, _, _, hnt, _, _, hkeep⟩ :=
        runEvent_txDone_summary cfg tS tE now s
      have hu : u8 (s.n_tx + 1) = s.n_tx + 1 := by
        simp only [u8]
        omega
      have hne : u8 (s.n_tx + 1) ≠ GET_N_TX_MAX s.header_pkt_type := by
        rw [hu, hh]
        omega
      have hact : ((runEvent cfg s (GEvent.txDone tS tE now)).1).active = 1 := by
        rw [hkeep hne, ha]
      have hh2 : GET_N_TX_MAX ((runEvent cfg s (GEvent.txDone tS tE now)).1).header_pkt_type = 0 := by
        rw [hph, hh]
      have hcnt2 : ((runEvent cfg s (GEvent.txDone tS tE now)).1).n_tx + countTx rest < 256 := by
        rw [hnt, hu]
        omega
      exact ih _ hact hh2 hev hcnt2
    | rxTxErr => simp [unboundedFloodEvents] at hev
    | timeoutFire now busy => simp [unboundedFloodEvents] at hev
    | stopEv now => simp [unboundedFloodEvents] at hev

/-- C9 (amended): a receiver that starts a flood with unknown/unbounded
n_tx_max = 0 is never terminated by the reception and transmission
callbacks as long as fewer than 256 transmissions complete (the 8-bit
n_tx then never wraps back to 0): active stays 1 until an external
glossy_stop.  (At the 256th completed transmission n_tx wraps to 0,
which equals n_tx_max, and the receiver stops itself — see the
counterexample.) -/
theorem unbounded_receiver_stays_active (cfg : GlossyConfig)
    (now init_id : Nat) (payloadInit : List Nat) (plen ws : Nat)
    (cal nv : Bool) (nz : Int) (sPre : GlossyState) (events : List GEvent)
    (hrecv : u16 init_id ≠ cfg.nodeId)
    (hev : unboundedFloodEvents events = true)
    (hcnt : countTx events < 256) :
    ((runTrace cfg ((glossy_start cfg now init_id payloadInit plen 0 ws cal nv nz sPre).1) events).1).active = 1 := by
  obtain ⟨_, _, _, hnt, hph, _, hact⟩ :=
    glossy_start_fields cfg now init_id payloadInit plen 0 ws cal nv nz sPre
  have hh : GET_N_TX_MAX ((glossy_start cfg now init_id payloadInit plen 0 ws cal nv nz sPre).1).header_pkt_type = 0 := by
    rw [hph, GET_N_TX_MAX_SET_PKT_TYPE]
  exact runTrace_unbounded_invariant cfg events
    ((glossy_start cfg now init_id payloadInit plen 0 ws cal nv nz sPre).1)
    (hact hrecv).1 hh hev (by omega)

set_option maxRecDepth 100000 in
theorem c9chunk1 : (runTrace cfg0 recvStart tx64).1 = c9lit64 := by decide

set_option maxRecDepth 100000 in
theorem c9chunk2 : (runTrace cfg0 c9lit64 tx64).1 = c9lit128 := by decide

set_option maxRecDepth 100000 in
theorem c9chunk3 : (runTrace cfg0 c9lit128 tx64).1 = c9lit192 := by decide

set_option maxRecDepth 100000 in
theorem c9trace_decomp : c9trace256 = tx64 ++ (tx64 ++ (tx64 ++ tx64)) := by
  decide

set_option maxRecDepth 100000 in
/-- C9 counterexample: on the unbounded receiver, after 256 completed
transmissions (a sequence of transmissions only, no external stop) the
8-bit n_tx wraps to 0 = n_tx_max and glossy_tx_ended stops the flood:
active = 0 without any external glossy_stop, refuting the claim for
arbitrary sequences of receptions and transmissions. -/
theorem unbounded_receiver_wrap_counterexample :
    u16 2 ≠ cfg0.nodeId ∧
    GET_N_TX_MAX recvStart.header_pkt_type = 0 ∧
    unboundedFloodEvents c9trace256 = true ∧
    countTx c9trace256 = 256 ∧
    c9run256.1.active = 0 := by
  have h1 : c9run256.1 = (runTrace cfg0 c9lit192 tx64).1 := by
    show (runTrace cfg0 recvStart c9trace256).1 = _
    rw [c9trace_decomp, runTrace_fst_append, c9chunk1, runTrace_fst_append,
        c9chunk2, runTrace_fst_append, c9chunk3]
  refine ⟨by decide, by decide, ?_, ?_, ?_⟩
  · decide
  · decide
  · rw [h1]
    decide

/-- C9 witness: the amended statement evaluated on the unbounded
receiver with one reception and one transmission. -/
theorem unbounded_receiver_stays_active_witness :
    u16 2 ≠ cfg0.nodeId ∧
    unboundedFloodEvents [evA, evT] = true ∧
    countTx [evA, evT] < 256 ∧
    ((runTrace cfg0 ((glossy_start cfg0 0 2 [9, 9, 9, 9] 4 0 0 false false 0 initState).1) [evA, evT]).1).active = 1 :=
  ⟨by decide, by decide, by decide,
   unbounded_receiver_stays_active cfg0 0 2 [9, 9, 9, 9] 4 0 false false 0
     initState [evA, evT] (by decide) (by decide) (by decide)⟩

/-- C8 witness: evaluated on the state left behind by stopping
recvStart. -/
theorem stop_inactive_noop_witness :
    ((glossy_stop cfg0 5 recvStart).1.1).active = 0 ∧
    glossy_stop cfg0 7 ((glossy_stop cfg0 5 recvStart).1.1) =
      (((glossy_stop cfg0 5 recvStart).1.1, []),
       ((glossy_stop cfg0 5 recvStart).1.1).n_rx) :=
  ⟨by decide,
   (stop_inactive_noop cfg0 7 ((glossy_stop cfg0 5 recvStart).1.1)
      (by decide)).1⟩

end Glossy
